import Mathlib

/-!
# Verification of the updatOR CVSS extraction-and-aggregation engine

This file gives a shallow embedding of the core logic of `src/cvss_metrics.py`
and `src/cvss_metric_plot.py` (the vector-string parsers, the field decoder,
the severity resolver, and the per-document aggregation loop of
`process_json_files`) and proves properties of the embedded code.

Modelling conventions:
* A parsed JSON document is a value of the inductive type `J`.
  Python `None` and JSON `null` are both `J.null`; numbers are rationals.
* Python code that can raise an exception is modelled with `Option`
  (for pure helpers) or `Except Stats Stats` (for the stateful
  aggregation loop, where the error value carries the counters as
  already mutated when the exception is raised — Python mutates the
  counter dictionaries in place, so updates made before an exception
  survive it).
* Python string operations used by the scripts (`split` on a one-character
  separator, `in`, `upper`) are re-implemented over the character list of
  the string so that they compute by kernel reduction.
-/

/-- A generic parsed JSON value (the "opaque generic tree" a document is
decoded into). Python `None` and JSON `null` are both `null`; `num` covers
ints and floats. -/
inductive J where
  | null : J
  | bool : Bool → J
  | num : ℚ → J
  | str : String → J
  | arr : List J → J
  | obj : List (String × J) → J

mutual

/-- Structural equality on generic values (Python `==` as it is exercised by
the scripts; the scripts only ever compare scalars). -/
def jeq : J → J → Bool
  | .null, .null => true
  | .bool x, .bool y => x == y
  | .num x, .num y => x == y
  | .str x, .str y => x == y
  | .arr x, .arr y => jeqList x y
  | .obj x, .obj y => jeqPairs x y
  | _, _ => false

def jeqList : List J → List J → Bool
  | [], [] => true
  | x :: xs, y :: ys => jeq x y && jeqList xs ys
  | _, _ => false

def jeqPairs : List (String × J) → List (String × J) → Bool
  | [], [] => true
  | (k, x) :: xs, (k2, y) :: ys => k == k2 && jeq x y && jeqPairs xs ys
  | _, _ => false

end

/-- Python truthiness of a decoded JSON value. -/
def truthy : J → Bool
  | .null => false
  | .bool b => b
  | .num q => q != 0
  | .str s => s != ""
  | .arr l => !l.isEmpty
  | .obj l => !l.isEmpty

/-- Split a character list on a separator character, keeping empty groups
(Python `str.split(sep)` for a one-character separator). -/
def splitChar (c : Char) : List Char → List (List Char)
  | [] => [[]]
  | x :: rest =>
    if x = c then [] :: splitChar c rest
    else
      match splitChar c rest with
      | [] => [[x]]
      | g :: gs => (x :: g) :: gs

/-- Python `s.split(sep)` for a one-character separator. -/
def pySplit (sep : Char) (s : String) : List String :=
  (splitChar sep s.data).map fun l => String.mk l

/-- Python `c in s` for a one-character needle. -/
def pyContainsChar (s : String) (c : Char) : Bool := s.data.contains c

/-- Python `sub in s` substring test. -/
def pyContainsSub (s sub : String) : Bool :=
  (List.range (s.data.length + 1)).any fun i => sub.data.isPrefixOf (s.data.drop i)

/-- Python `s.upper()` (ASCII; the values the scripts compare against are
ASCII). -/
def pyUpper (s : String) : String := String.mk (s.data.map Char.toUpper)

mutual

/-- Python `str()` of a value. Strings pass through unchanged; other values
render to their Python textual form (container rendering uses `repr` of the
elements, as Python does). -/
def pyStr : J → String
  | .null => "None"
  | .bool true => "True"
  | .bool false => "False"
  | .str s => s
  | .num q => toString q
  | .arr l => "[" ++ pyStrList l ++ "]"
  | .obj l => "\x7b" ++ pyStrPairs l ++ "\x7d"

/-- Python `repr()` as used for elements inside containers. -/
def pyRepr : J → String
  | .str s => "\x27" ++ s ++ "\x27"
  | v => pyStr v

def pyStrList : List J → String
  | [] => ""
  | [x] => pyRepr x
  | x :: y :: rest => pyRepr x ++ ", " ++ pyStrList (y :: rest)

def pyStrPairs : List (String × J) → String
  | [] => ""
  | [(k, v)] => "\x27" ++ k ++ "\x27: " ++ pyRepr v
  | (k, v) :: p :: rest => "\x27" ++ k ++ "\x27: " ++ pyRepr v ++ ", " ++ pyStrPairs (p :: rest)

end

/-- First value bound to a key in a decoded JSON object list. -/
def lookupKey (l : List (String × J)) (k : String) : Option J :=
  match l with
  | [] => none
  | (k2, v) :: rest => if k2 = k then some v else lookupKey rest k

/-- Python `key in value` (`none` = `TypeError`, Python raises when the value
is not iterable / not a container). -/
def memKey (v : J) (k : String) : Option Bool :=
  match v with
  | .obj l => some (lookupKey l k).isSome
  | .str s => some (pyContainsSub s k)
  | .arr l => some (l.any fun x => jeq x (J.str k))
  | _ => none

/-- Python `value[k]` subscription by a string key (`none` = `KeyError` or
`TypeError`). -/
def index (v : J) (k : String) : Option J :=
  match v with
  | .obj l => lookupKey l k
  | _ => none

/-- Python `value.get(k, default)` (`none` = `AttributeError`: `.get` exists
only on dicts). -/
def dGet (v : J) (k : String) (default : J) : Option J :=
  match v with
  | .obj l => some ((lookupKey l k).getD default)
  | _ => none

/-- Python `value.get(k)` with no default: absent keys give `None`. -/
def dGetOpt (v : J) (k : String) : Option J :=
  dGet v k J.null

/-- Python `for x in value` (`none` = `TypeError`): lists iterate elements,
strings iterate one-character strings, dicts iterate their keys. -/
def pyIter (v : J) : Option (List J) :=
  match v with
  | .arr l => some l
  | .str s => some (s.data.map fun c => J.str (String.mk [c]))
  | .obj l => some (l.map fun p => J.str p.1)
  | _ => none

/-- Whether a value may be used as a Python dict/Counter key (lists and dicts
are unhashable; `Counter[value] += 1` raises `TypeError` on them). -/
def hashable : J → Bool
  | .arr _ => false
  | .obj _ => false
  | _ => true

/-- Python `isinstance(value, dict)`. -/
def isDict : J → Bool
  | .obj _ => true
  | _ => false

/-- Python `value is None`. -/
def isNone : J → Bool
  | .null => true
  | _ => false

/-- Numeric coercion for Python `>=` against a float (`none` = `TypeError`;
Python treats booleans as the integers 0 and 1). -/
def toNum : J → Option ℚ
  | .num q => some q
  | .bool b => some (if b then 1 else 0)
  | _ => none

/-! ## Vector Grammar Parser (`parse_vector_string`, `parse_vector_string_v2`) -/

/-- Python dict assignment `m[k] = v`: replace in place if the key exists,
append otherwise. -/
def setKey : List (String × J) → String → J → List (String × J)
  | [], k, v => [(k, v)]
  | (k2, v2) :: rest, k, v =>
    if k2 = k then (k2, v) :: rest else (k2, v2) :: setKey rest k v

/-- The initial metrics dict of `parse_vector_string` (v3.x grammar). -/
def v3init : List (String × J) :=
  [("Confidentiality", J.str "N/A"),
   ("Integrity", J.str "N/A"),
   ("Availability", J.str "N/A"),
   ("Attack Vector", J.str "N/A"),
   ("Attack Complexity", J.str "N/A"),
   ("Privileges Required", J.str "N/A"),
   ("User Interaction", J.str "N/A"),
   ("Scope", J.str "N/A"),
   ("baseSeverity", J.str "N/A")]

/-- The initial metrics dict of `parse_vector_string_v2` (v2.0 grammar). -/
def v2init : List (String × J) :=
  [("Confidentiality", J.str "N/A"),
   ("Integrity", J.str "N/A"),
   ("Availability", J.str "N/A"),
   ("Attack Vector", J.str "N/A"),
   ("Attack Complexity", J.str "N/A"),
   ("Authentication", J.str "N/A"),
   ("baseSeverity", J.str "N/A")]

/-- The `elif` chain of `parse_vector_string` mapping a v3.x vector key to the
metrics-dict entry it updates (`none` = unrecognized key, silently ignored). -/
def v3KeyName (k : String) : Option String :=
  if k = "C" then some "Confidentiality"
  else if k = "I" then some "Integrity"
  else if k = "A" then some "Availability"
  else if k = "AV" then some "Attack Vector"
  else if k = "AC" then some "Attack Complexity"
  else if k = "PR" then some "Privileges Required"
  else if k = "UI" then some "User Interaction"
  else if k = "S" then some "Scope"
  else none

/-- The `elif` chain of `parse_vector_string_v2` for v2.0 vector keys. -/
def v2KeyName (k : String) : Option String :=
  if k = "C" then some "Confidentiality"
  else if k = "I" then some "Integrity"
  else if k = "A" then some "Availability"
  else if k = "AV" then some "Attack Vector"
  else if k = "AC" then some "Attack Complexity"
  else if k = "Au" then some "Authentication"
  else none

/-- The segment loop shared by both parsers: each `/`-segment containing a
colon is split on `:`; `key, value = part.split(':')` succeeds only when the
split yields exactly two pieces, so a segment with two or more colons raises
`ValueError` (`none`); segments without a colon are skipped. -/
def parseParts (keyName : String → Option String) :
    List (String × J) → List String → Option (List (String × J))
  | m, [] => some m
  | m, part :: rest =>
    if pyContainsChar part ':' then
      match pySplit ':' part with
      | [k, v] =>
        match keyName k with
        | some name => parseParts keyName (setKey m name (J.str v)) rest
        | none => parseParts keyName m rest
      | _ => none
    else parseParts keyName m rest

/-- `parse_vector_string` — parse a CVSS v3.x vector string (`none` = the
Python function raises). -/
def parse_vector_string (s : String) : Option (List (String × J)) :=
  if s = "" then some v3init
  else parseParts v3KeyName v3init (pySplit '/' s)

/-- `parse_vector_string_v2` — parse a CVSS v2.0 vector string (`none` = the
Python function raises). -/
def parse_vector_string_v2 (s : String) : Option (List (String × J)) :=
  if s = "" then some v2init
  else parseParts v2KeyName v2init (pySplit '/' s)

/-! ## Field Decoder (`extract_metrics`) -/

/-- The direct-field fallback of `extract_metrics` for `cvssV3_1` /
`cvssV3_0` blocks without a vector string. -/
def v3Fields (cvss : J) : Option (List (String × J)) := do
  let c ← dGet cvss "confidentialityImpact" (J.str "N/A")
  let i ← dGet cvss "integrityImpact" (J.str "N/A")
  let a ← dGet cvss "availabilityImpact" (J.str "N/A")
  let av ← dGet cvss "attackVector" (J.str "N/A")
  let ac ← dGet cvss "attackComplexity" (J.str "N/A")
  let pr ← dGet cvss "privilegesRequired" (J.str "N/A")
  let ui ← dGet cvss "userInteraction" (J.str "N/A")
  let sc ← dGet cvss "scope" (J.str "N/A")
  let bs ← dGet cvss "baseSeverity" (J.str "N/A")
  some [("Confidentiality", c), ("Integrity", i), ("Availability", a),
        ("Attack Vector", av), ("Attack Complexity", ac),
        ("Privileges Required", pr), ("User Interaction", ui),
        ("Scope", sc), ("baseSeverity", bs)]

/-- The direct-field fallback of `extract_metrics` for `cvssV2_0` blocks
without a vector string (`baseSeverity` is the literal `'N/A'`). -/
def v2Fields (cvss : J) : Option (List (String × J)) := do
  let c ← dGet cvss "confidentialityImpact" (J.str "N/A")
  let i ← dGet cvss "integrityImpact" (J.str "N/A")
  let a ← dGet cvss "availabilityImpact" (J.str "N/A")
  let av ← dGet cvss "accessVector" (J.str "N/A")
  let ac ← dGet cvss "accessComplexity" (J.str "N/A")
  let au ← dGet cvss "authentication" (J.str "N/A")
  some [("Confidentiality", c), ("Integrity", i), ("Availability", a),
        ("Attack Vector", av), ("Attack Complexity", ac),
        ("Authentication", au), ("baseSeverity", J.str "N/A")]

/-- One version branch of `extract_metrics`: fetch the sub-block, use the
vector string if truthy, fall back to direct fields. A truthy non-string
`vectorString` raises at `.split` (`none`). -/
def versionBranch (parse : String → Option (List (String × J)))
    (fields : J → Option (List (String × J))) (b : J) (key : String) :
    Option (List (String × J)) := do
  let cvss ← index b key
  let vs ← dGet cvss "vectorString" (J.str "")
  if truthy vs then
    match vs with
    | J.str s => parse s
    | _ => none
  else fields cvss

/-- `extract_metrics` — decode one raw score block into the canonical metric
dict, dispatching on the standard-version key (checked in the order
`cvssV3_1`, `cvssV3_0`, `cvssV2_0`); a block with none of the three keys
yields the empty dict (`none` = the Python function raises). -/
def extract_metrics (b : J) : Option (List (String × J)) := do
  let h31 ← memKey b "cvssV3_1"
  if h31 then versionBranch parse_vector_string v3Fields b "cvssV3_1"
  else do
    let h30 ← memKey b "cvssV3_0"
    if h30 then versionBranch parse_vector_string v3Fields b "cvssV3_0"
    else do
      let h20 ← memKey b "cvssV2_0"
      if h20 then versionBranch parse_vector_string_v2 v2Fields b "cvssV2_0"
      else some []

/-! ## Severity Resolver (`extract_severity_from_cvss`,
`calculate_severity_from_score`) -/

/-- `calculate_severity_from_score` — derive a severity label from a numeric
base score with version-specific thresholds (`none` = `TypeError`, the score
is not a number); the source's `0.1` threshold is the rational `mkRat 1 10`.
Any version string other than `"v3"` takes the v2 branch, as in the
source's `else`. -/
def calculate_severity_from_score (baseScore : J) (cvssVersion : String) :
    Option String := do
  let q ← toNum baseScore
  if cvssVersion = "v3" then
    some (if q ≥ 9 then "Critical"
          else if q ≥ 7 then "High"
          else if q ≥ 4 then "Medium"
          else if q ≥ mkRat 1 10 then "Low"
          else "N/A")
  else
    some (if q ≥ 7 then "High"
          else if q ≥ 4 then "Medium"
          else if q ≥ mkRat 1 10 then "Low"
          else "N/A")

/-- The v3 label branch of `extract_severity_from_cvss`: a truthy
`baseSeverity` is mapped through the four known labels (anything else leaves
the `'N/A'` default and the score is not consulted); otherwise a non-`None`
`baseScore` is thresholded. -/
def severityFromV3Block (cvss : J) : Option String := do
  let bsev ← dGetOpt cvss "baseSeverity"
  if truthy bsev then
    some (if jeq bsev (J.str "CRITICAL") then "Critical"
          else if jeq bsev (J.str "HIGH") then "High"
          else if jeq bsev (J.str "MEDIUM") then "Medium"
          else if jeq bsev (J.str "LOW") then "Low"
          else "N/A")
  else do
    let bsc ← dGetOpt cvss "baseScore"
    if !isNone bsc then calculate_severity_from_score bsc "v3"
    else some "N/A"

/-- `extract_severity_from_cvss` — resolve one severity label from a raw
score block (`none` = the Python function raises). -/
def extract_severity_from_cvss (b : J) : Option String := do
  let h31 ← memKey b "cvssV3_1"
  if h31 then do
    let cvss ← index b "cvssV3_1"
    severityFromV3Block cvss
  else do
    let h30 ← memKey b "cvssV3_0"
    if h30 then do
      let cvss ← index b "cvssV3_0"
      severityFromV3Block cvss
    else do
      let h20 ← memKey b "cvssV2_0"
      if h20 then do
        let cvss ← index b "cvssV2_0"
        let bsc ← dGetOpt cvss "baseScore"
        if !isNone bsc then calculate_severity_from_score bsc "v2"
        else some "N/A"
      else some "N/A"

/-! ## Impact normalization (`normalize_impact`, `cvss_metric_plot.py`) -/

/-- `normalize_impact` — canonicalize a CIA impact value: `None` gives
`'N/A'`, otherwise the value is stringified, upper-cased and matched against
the synonym lists; anything unrecognized gives `'N/A'`. -/
def normalize_impact (v : J) : String :=
  if isNone v then "N/A"
  else
    let u := pyUpper (pyStr v)
    if u = "H" ∨ u = "HIGH" then "HIGH"
    else if u = "L" ∨ u = "LOW" then "LOW"
    else if u = "N" ∨ u = "NONE" then "NONE"
    else if u = "M" ∨ u = "MEDIUM" then "MEDIUM"
    else "N/A"

/-! ## Aggregator state (`process_json_files`) -/

/-- One `Counter` (value → occurrence count). -/
def Cnt : Type := J → Nat

/-- Corpus-wide aggregation state of `process_json_files`: the main
`frequency_counter` dict (as a map from dimension name to counter), the
separate `frequency_counter_v2['Authentication']` counter, the scalar totals,
and the number of per-document errors printed by the `except` handler. -/
structure Stats where
  freq : String → Cnt
  auth : Cnt
  totalFiles : Nat
  filesWithMetrics : Nat
  filesProcessed : Nat
  v2Files : Nat
  v3Files : Nat
  errors : Nat

/-- The keys present in `frequency_counter` while files are processed. -/
def mainKeys : List String :=
  ["Confidentiality", "Integrity", "Availability", "Attack Vector",
   "Attack Complexity", "Privileges Required", "User Interaction",
   "Scope", "baseSeverity", "SeverityLevel"]

/-- `Counter[v] += 1`. -/
def cBump (c : Cnt) (v : J) : Cnt :=
  fun x => if jeq x v then c x + 1 else c x

/-- `frequency_counter[key][v] += 1`. -/
def fBump (f : String → Cnt) (key : String) (v : J) : String → Cnt :=
  fun k => if k = key then cBump (f k) v else f k

/-- All-zero state at the start of a run. -/
def initStats : Stats where
  freq := fun _ _ => 0
  auth := fun _ => 0
  totalFiles := 0
  filesWithMetrics := 0
  filesProcessed := 0
  v2Files := 0
  v3Files := 0
  errors := 0

/-- The state carried by a raised exception (`.error`) or a normal result
(`.ok`). -/
def exceptState : Except Stats Stats → Stats
  | .ok st => st
  | .error st => st

/-- The state carried by a section result that also tracks `has_metrics`. -/
def exceptStateB : Except Stats (Stats × Bool) → Stats
  | .ok (st, _) => st
  | .error st => st

/-- The `for key, value in metrics.items()` loop of `process_json_files` in
`cvss_metrics.py`: keys present in `frequency_counter` are counted at the raw
value; an unhashable value raises `TypeError` (`.error`). -/
def itemsLoop (st : Stats) : List (String × J) → Except Stats Stats
  | [] => .ok st
  | (k, v) :: rest =>
    if k ∈ mainKeys then
      if hashable v then
        itemsLoop { st with freq := fBump st.freq k v } rest
      else .error st
    else itemsLoop st rest

/-- The per-item normalization of `cvss_metric_plot.py`: Confidentiality /
Integrity / Availability values pass through `normalize_impact`, all other
values pass unchanged. -/
def normalizeIfCIA (k : String) (v : J) : J :=
  if k ∈ ["Confidentiality", "Integrity", "Availability"]
  then J.str (normalize_impact v) else v

/-- The same items loop in `cvss_metric_plot.py`, which first passes
Confidentiality / Integrity / Availability values through
`normalize_impact`. -/
def itemsLoopP (st : Stats) : List (String × J) → Except Stats Stats
  | [] => .ok st
  | (k, v) :: rest =>
    if k ∈ mainKeys then
      if hashable (normalizeIfCIA k v) then
        itemsLoopP { st with freq := fBump st.freq k (normalizeIfCIA k v) } rest
      else .error st
    else itemsLoopP st rest

/-- The per-score-block body shared verbatim by the `cna` and `adp` loops of
`process_json_files` (`cvss_metrics.py` lines 267–289 and 298–320):
decode the block, and when the metric dict is truthy count the resolved
severity (skipping `'N/A'`), bump the version counters by the version key
found on the block, count a v2 `Authentication` value, and fold the metric
dict into `frequency_counter` via the items loop. The final items loop is a
parameter because the two scripts differ only there. -/
def absorbBlockWith (items : Stats → List (String × J) → Except Stats Stats)
    (st : Stats) (b : J) : Except Stats Stats :=
  match extract_metrics b with
  | none => .error st
  | some metrics =>
    if metrics.isEmpty then .ok st
    else
      match extract_severity_from_cvss b with
      | none => .error st
      | some sev =>
        let st1 := if sev ≠ "N/A"
                   then { st with freq := fBump st.freq "SeverityLevel" (J.str sev) }
                   else st
        match memKey b "cvssV2_0" with
        | none => .error st1
        | some true =>
          let st2 := { st1 with v2Files := st1.v2Files + 1 }
          match lookupKey metrics "Authentication" with
          | some av =>
            if hashable av then
              items { st2 with auth := cBump st2.auth av } metrics
            else .error st2
          | none => items st2 metrics
        | some false =>
          match memKey b "cvssV3_0" with
          | none => .error st1
          | some true => items { st1 with v3Files := st1.v3Files + 1 } metrics
          | some false =>
            match memKey b "cvssV3_1" with
            | none => .error st1
            | some true => items { st1 with v3Files := st1.v3Files + 1 } metrics
            | some false => items st1 metrics

/-- Per-block body of `cvss_metrics.py` (raw values counted). -/
def absorbBlock : Stats → J → Except Stats Stats := absorbBlockWith itemsLoop

/-- Per-block body of `cvss_metric_plot.py` (CIA values normalized). -/
def absorbBlockP : Stats → J → Except Stats Stats := absorbBlockWith itemsLoopP

/-- Run a per-block body over a list of score blocks, stopping at the first
raised exception. -/
def runBlocks (body : Stats → J → Except Stats Stats) :
    Stats → List J → Except Stats Stats
  | st, [] => .ok st
  | st, b :: rest =>
    match body st b with
    | .error e => .error e
    | .ok st2 => runBlocks body st2 rest

/-- `data.get('containers', {}).get('cna', {}).get('metrics', [])`. -/
def getCnaMetrics (data : J) : Option J := do
  let c ← dGet data "containers" (J.obj [])
  let cna ← dGet c "cna" (J.obj [])
  dGet cna "metrics" (J.arr [])

/-- `data.get('containers', {}).get('adp', [])`. -/
def getAdpList (data : J) : Option J := do
  let c ← dGet data "containers" (J.obj [])
  dGet c "adp" (J.arr [])

/-- The `cna` tier of `process_json_files`: if the primary metrics list is
truthy, `has_metrics` is set and every block is absorbed. -/
def cnaSection (body : Stats → J → Except Stats Stats) (st : Stats) (data : J) :
    Except Stats (Stats × Bool) :=
  match getCnaMetrics data with
  | none => .error st
  | some cm =>
    if truthy cm then
      match pyIter cm with
      | none => .error st
      | some blocks =>
        match runBlocks body st blocks with
        | .error e => .error e
        | .ok st2 => .ok (st2, true)
    else .ok (st, false)

/-- The loop over the secondary (`adp`) sections: each section with a truthy
metrics list sets `has_metrics` and has its blocks absorbed. -/
def adpLoop (body : Stats → J → Except Stats Stats) :
    Stats → Bool → List J → Except Stats (Stats × Bool)
  | st, has, [] => .ok (st, has)
  | st, has, adp :: rest =>
    match dGet adp "metrics" (J.arr []) with
    | none => .error st
    | some am =>
      if truthy am then
        match pyIter am with
        | none => .error st
        | some blocks =>
          match runBlocks body st blocks with
          | .error e => .error e
          | .ok st2 => adpLoop body st2 true rest
      else adpLoop body st has rest

/-- The `adp` tier of `process_json_files`, guarded by `if not has_metrics`. -/
def adpSection (body : Stats → J → Except Stats Stats) (st : Stats)
    (has : Bool) (data : J) : Except Stats (Stats × Bool) :=
  if has then .ok (st, true)
  else
    match getAdpList data with
    | none => .error st
    | some al =>
      match pyIter al with
      | none => .error st
      | some adps => adpLoop body st false adps

/-- The legacy-v3 branch body: count the version, threshold the base score
(when present) into `SeverityLevel` — with no `'N/A'` guard — and mirror the
four known labels into the `baseSeverity` counter. -/
def legacyV3Body (st : Stats) (cv3 : J) : Except Stats (Stats × Bool) :=
  let st1 := { st with v3Files := st.v3Files + 1 }
  match dGetOpt cv3 "baseScore" with
  | none => .error st1
  | some bsc =>
    if !isNone bsc then
      match calculate_severity_from_score bsc "v3" with
      | none => .error st1
      | some sev =>
        let st2 := { st1 with freq := fBump st1.freq "SeverityLevel" (J.str sev) }
        let st3 :=
          if sev = "Critical" then
            { st2 with freq := fBump st2.freq "baseSeverity" (J.str "CRITICAL") }
          else if sev = "High" then
            { st2 with freq := fBump st2.freq "baseSeverity" (J.str "HIGH") }
          else if sev = "Medium" then
            { st2 with freq := fBump st2.freq "baseSeverity" (J.str "MEDIUM") }
          else if sev = "Low" then
            { st2 with freq := fBump st2.freq "baseSeverity" (J.str "LOW") }
          else st2
        .ok (st3, true)
    else .ok (st1, true)

/-- The legacy-v2 branch body (no Critical tier in the `baseSeverity`
mirror). -/
def legacyV2Body (st : Stats) (cv2 : J) : Except Stats (Stats × Bool) :=
  let st1 := { st with v2Files := st.v2Files + 1 }
  match dGetOpt cv2 "baseScore" with
  | none => .error st1
  | some bsc =>
    if !isNone bsc then
      match calculate_severity_from_score bsc "v2" with
      | none => .error st1
      | some sev =>
        let st2 := { st1 with freq := fBump st1.freq "SeverityLevel" (J.str sev) }
        let st3 :=
          if sev = "High" then
            { st2 with freq := fBump st2.freq "baseSeverity" (J.str "HIGH") }
          else if sev = "Medium" then
            { st2 with freq := fBump st2.freq "baseSeverity" (J.str "MEDIUM") }
          else if sev = "Low" then
            { st2 with freq := fBump st2.freq "baseSeverity" (J.str "LOW") }
          else st2
        .ok (st3, true)
    else .ok (st1, true)

/-- `impact_data.get('baseMetricV3', {}).get('cvssV3', {})`. -/
def getLegacyV3 (imp : J) : Option J := do
  let bm ← dGet imp "baseMetricV3" (J.obj [])
  dGet bm "cvssV3" (J.obj [])

/-- `impact_data.get('baseMetricV2', {}).get('cvssV2', {})`. -/
def getLegacyV2 (imp : J) : Option J := do
  let bm ← dGet imp "baseMetricV2" (J.obj [])
  dGet bm "cvssV2" (J.obj [])

/-- The legacy (`impact`) tier of `process_json_files`, guarded by
`if not has_metrics`: a dict `impact` object is probed for a truthy
`baseMetricV3.cvssV3` sub-block first, else `baseMetricV2.cvssV2`.
This tier is identical in both scripts. -/
def legacySection (st : Stats) (has : Bool) (data : J) :
    Except Stats (Stats × Bool) :=
  if has then .ok (st, true)
  else
    match dGet data "impact" (J.obj []) with
    | none => .error st
    | some imp =>
      if isDict imp then
        match getLegacyV3 imp with
        | none => .error st
        | some cv3 =>
          if truthy cv3 then legacyV3Body st cv3
          else
            match getLegacyV2 imp with
            | none => .error st
            | some cv2 =>
              if truthy cv2 then legacyV2Body st cv2
              else .ok (st, false)
      else .ok (st, false)

/-- The whole `try` body of `process_json_files` after `json.load`: the three
tiers in priority order, then the `files_with_metrics` and `files_processed`
updates. -/
def processDataWith (body : Stats → J → Except Stats Stats) (st : Stats)
    (data : J) : Except Stats Stats :=
  match cnaSection body st data with
  | .error e => .error e
  | .ok (st1, h1) =>
    match adpSection body st1 h1 data with
    | .error e => .error e
    | .ok (st2, h2) =>
      match legacySection st2 h2 data with
      | .error e => .error e
      | .ok (st3, h3) =>
        let st4 := if h3 then { st3 with filesWithMetrics := st3.filesWithMetrics + 1 }
                   else st3
        .ok { st4 with filesProcessed := st4.filesProcessed + 1 }

/-- One iteration of the file loop of `process_json_files`: `total_files` is
incremented before the `try`; a document that fails to decode (`none`), or
raises anywhere inside the `try`, is reported by the `except` handler
(counted in `errors`) and the loop moves on with the state as already
mutated. -/
def processFileWith (body : Stats → J → Except Stats Stats) (st : Stats)
    (input : Option J) : Stats :=
  let st0 := { st with totalFiles := st.totalFiles + 1 }
  match input with
  | none => { st0 with errors := st0.errors + 1 }
  | some data =>
    match processDataWith body st0 data with
    | .ok st2 => st2
    | .error st2 => { st2 with errors := st2.errors + 1 }

/-- Per-document step of `cvss_metrics.py`. -/
def processFile : Stats → Option J → Stats := processFileWith absorbBlock

/-- Per-document step of `cvss_metric_plot.py`. -/
def processFileP : Stats → Option J → Stats := processFileWith absorbBlockP

/-- `process_json_files` of `cvss_metrics.py` over a batch of already-decoded
inputs (`none` = a file whose `json.load` raised). -/
def process_json_files (inputs : List (Option J)) : Stats :=
  inputs.foldl processFile initStats

/-! ## Concrete example documents -/

/-- A cna score block whose `cvssV3_1` sub-block has only a base score. -/
def scoreOnlyV3Block : J := J.obj [("cvssV3_1", J.obj [("baseScore", J.num 5)])]

/-- A document whose primary metrics list holds two v3.1 score blocks. -/
def twoV3BlocksDoc : J :=
  J.obj [("containers", J.obj [("cna", J.obj [("metrics", J.arr [scoreOnlyV3Block, scoreOnlyV3Block])])])]

/-- A document whose single cna block carries the single-letter impact value
`"H"` in a direct field (no vector string). -/
def rawLetterImpactDoc : J :=
  J.obj [("containers", J.obj [("cna", J.obj [("metrics",
    J.arr [J.obj [("cvssV3_1", J.obj [("confidentialityImpact", J.str "H")])]])])])]

/-- A legacy-format document whose `cvssV3` sub-block has base score `0.0`
(below every severity threshold). -/
def legacyZeroScoreDoc : J :=
  J.obj [("impact", J.obj [("baseMetricV3", J.obj [("cvssV3", J.obj [("baseScore", J.num 0)])])])]

/-- A cna score block whose `cvssV2_0` sub-block has only a base score. -/
def scoreOnlyV2Block : J := J.obj [("cvssV2_0", J.obj [("baseScore", J.num 5)])]

/-- A document whose primary metrics list holds one v3.1 block and one v2.0
block, so both standard-version counters move for the same document. -/
def mixedVersionsDoc : J :=
  J.obj [("containers", J.obj [("cna", J.obj [("metrics",
    J.arr [scoreOnlyV3Block, scoreOnlyV2Block])])])]

/-- A v3.1 score block carrying both an explicit `baseSeverity` label and a
numeric base score whose thresholds would yield a different tier. -/
def labelAndScoreBlock : J :=
  J.obj [("cvssV3_1", J.obj [("baseSeverity", J.str "HIGH"), ("baseScore", J.num 2)])]

/-- A document whose primary metrics list is non-empty but holds only a block
with none of the three standard-version keys, while rich scoring data sits in
the secondary (`adp`) tier and the legacy (`impact`) object. -/
def unknownVersionDoc : J :=
  J.obj [("containers", J.obj [
            ("cna", J.obj [("metrics", J.arr [J.obj [("foo", J.null)]])]),
            ("adp", J.arr [J.obj [("metrics", J.arr [scoreOnlyV3Block])]])]),
         ("impact", J.obj [("baseMetricV3", J.obj [("cvssV3", J.obj [("baseScore", J.num 8)])])])]

/-- Every key that can appear in a metric dict produced by
`extract_metrics` (the nine v3 dimension names plus `Authentication`);
`SeverityLevel` is never among them. -/
def extractKeys : List String :=
  ["Confidentiality", "Integrity", "Availability", "Attack Vector",
   "Attack Complexity", "Privileges Required", "User Interaction",
   "Scope", "baseSeverity", "Authentication"]

/-! ## Helper lemmas -/

theorem jeq_str_right (v : J) (c : String) : jeq v (J.str c) = true ↔ v = J.str c := by
  cases v <;> simp [jeq]

theorem cBump_str_at_ne (c : Cnt) (t : String) (v0 : J) (h : v0 ≠ J.str t) :
    cBump c (J.str t) v0 = c v0 := by
  unfold cBump
  have : jeq v0 (J.str t) = false := by
    rcases hj : jeq v0 (J.str t) with _ | _
    · rfl
    · exact absurd ((jeq_str_right v0 t).mp hj) h
  simp [this]

theorem fBump_ne_key (f : String → Cnt) (key k : String) (v : J) (h : k ≠ key) :
    fBump f key v k = f k := by
  simp [fBump, h]

theorem fBump_str_at_ne (f : String → Cnt) (key : String) (t : String)
    (k0 : String) (v0 : J) (h : v0 ≠ J.str t) :
    fBump f key (J.str t) k0 v0 = f k0 v0 := by
  unfold fBump
  by_cases hk : k0 = key
  · simp [hk, cBump_str_at_ne _ _ _ h]
  · simp [hk]

theorem normalize_impact_cases (v : J) :
    normalize_impact v = "HIGH" ∨ normalize_impact v = "LOW" ∨
    normalize_impact v = "NONE" ∨ normalize_impact v = "MEDIUM" ∨
    normalize_impact v = "N/A" := by
  unfold normalize_impact
  by_cases h0 : isNone v = true
  · simp [h0]
  · by_cases h1 : pyUpper (pyStr v) = "H" ∨ pyUpper (pyStr v) = "HIGH"
    · simp [h0, h1]
    · by_cases h2 : pyUpper (pyStr v) = "L" ∨ pyUpper (pyStr v) = "LOW"
      · simp [h0, h1, h2]
      · by_cases h3 : pyUpper (pyStr v) = "N" ∨ pyUpper (pyStr v) = "NONE"
        · simp [h0, h1, h2, h3]
        · by_cases h4 : pyUpper (pyStr v) = "M" ∨ pyUpper (pyStr v) = "MEDIUM"
          · simp [h0, h1, h2, h3, h4]
          · simp [h0, h1, h2, h3, h4]

theorem splitChar_ne_nil (c : Char) (l : List Char) : splitChar c l ≠ [] := by
  induction l with
  | nil => simp [splitChar]
  | cons x rest ih =>
    unfold splitChar
    by_cases hx : x = c
    · simp [hx]
    · simp only [hx, if_false]
      rcases h : splitChar c rest with _ | ⟨g, gs⟩
      · simp
      · simp

theorem splitChar_length (c : Char) (l : List Char) :
    (splitChar c l).length = l.count c + 1 := by
  induction l with
  | nil => simp [splitChar]
  | cons x rest ih =>
    unfold splitChar
    by_cases hx : x = c
    · simp [hx, ih, List.count_cons]
    · simp only [hx, if_false]
      rcases h : splitChar c rest with _ | ⟨g, gs⟩
      · exact absurd h (splitChar_ne_nil c rest)
      · have := ih
        rw [h] at this
        simp only [List.length_cons] at this ⊢
        rw [List.count_cons]
        simp [hx]
        omega

theorem pySplit_length (c : Char) (s : String) :
    (pySplit c s).length = s.data.count c + 1 := by
  simp [pySplit, splitChar_length]

theorem pySplit_length_two (c : Char) (s : String)
    (hmem : pyContainsChar s c = true) (hle : s.data.count c ≤ 1) :
    ∃ a b, pySplit c s = [a, b] := by
  have h1 : 1 ≤ s.data.count c := by
    have : c ∈ s.data := by simpa [pyContainsChar] using hmem
    exact List.count_pos_iff.mpr this
  have h2 : (pySplit c s).length = 2 := by
    rw [pySplit_length]; omega
  rcases hsp : pySplit c s with _ | ⟨a, rest⟩
  · rw [hsp] at h2; simp at h2
  · rcases rest with _ | ⟨b, rest2⟩
    · rw [hsp] at h2; simp at h2
    · rcases rest2 with _ | ⟨x, rest3⟩
      · exact ⟨a, b, rfl⟩
      · rw [hsp] at h2; simp at h2

theorem setKey_lookup_isSome (m : List (String × J)) (k : String) (v : J)
    (k2 : String) (h : (lookupKey m k2).isSome) :
    (lookupKey (setKey m k v) k2).isSome := by
  induction m with
  | nil => simp [lookupKey] at h
  | cons p rest ih =>
    obtain ⟨pk, pv⟩ := p
    unfold setKey
    by_cases hk : pk = k
    · simp only [hk, if_true]
      unfold lookupKey at h ⊢
      by_cases hk2 : k = k2
      · simp [hk2]
      · simp only [hk2, if_false] at h ⊢
        rw [hk] at h
        simpa [hk2] using h
    · simp only [hk, if_false]
      unfold lookupKey at h ⊢
      by_cases hk2 : pk = k2
      · simp [hk2]
      · simp only [hk2, if_false] at h ⊢
        exact ih h

theorem parseParts_ok (kn : String → Option String) :
    ∀ (parts : List String) (m : List (String × J)),
    (∀ part ∈ parts, part.data.count ':' ≤ 1) →
    ∃ m2, parseParts kn m parts = some m2 ∧
      ∀ k, (lookupKey m k).isSome → (lookupKey m2 k).isSome := by
  intro parts
  induction parts with
  | nil => exact fun m _ => ⟨m, rfl, fun _ h => h⟩
  | cons part rest ih =>
    intro m hcount
    have hrest : ∀ p ∈ rest, p.data.count ':' ≤ 1 :=
      fun p hp => hcount p (List.mem_cons_of_mem _ hp)
    by_cases hc : pyContainsChar part ':' = true
    · obtain ⟨a, b, hsp⟩ :=
        pySplit_length_two ':' part hc (hcount part (List.mem_cons_self _ _))
      rcases hkn : kn a with _ | name
      · obtain ⟨m2, hm2, hmono⟩ := ih m hrest
        exact ⟨m2, by simp [parseParts, hc, hsp, hkn, hm2], hmono⟩
      · obtain ⟨m2, hm2, hmono⟩ := ih (setKey m name (J.str b)) hrest
        exact ⟨m2, by simp [parseParts, hc, hsp, hkn, hm2],
               fun k h => hmono k (setKey_lookup_isSome m name (J.str b) k h)⟩
    · obtain ⟨m2, hm2, hmono⟩ := ih m hrest
      exact ⟨m2, by simp [parseParts, hc, hm2], hmono⟩


theorem itemsLoop_only_freq : ∀ (items : List (String × J)) (st : Stats),
    ∃ f, exceptState (itemsLoop st items) = { st with freq := f } := by
  intro items
  induction items with
  | nil => exact fun st => ⟨st.freq, rfl⟩
  | cons p rest ih =>
    intro st
    obtain ⟨k, v⟩ := p
    unfold itemsLoop
    by_cases hk : k ∈ mainKeys
    · by_cases hv : hashable v = true
      · simp only [hk, if_true, hv]
        exact ih { st with freq := fBump st.freq k v }
      · simp only [hk, if_true, hv]
        exact ⟨st.freq, rfl⟩
    · simp only [hk, if_false]
      exact ih st

theorem itemsLoopP_only_freq : ∀ (items : List (String × J)) (st : Stats),
    ∃ f, exceptState (itemsLoopP st items) = { st with freq := f } := by
  intro items
  induction items with
  | nil => exact fun st => ⟨st.freq, rfl⟩
  | cons p rest ih =>
    intro st
    obtain ⟨k, v⟩ := p
    unfold itemsLoopP
    by_cases hk : k ∈ mainKeys
    · by_cases hv : hashable (normalizeIfCIA k v) = true
      · simp only [hk, if_true, hv]
        exact ih { st with freq := fBump st.freq k (normalizeIfCIA k v) }
      · simp only [hk, if_true, hv]
        exact ⟨st.freq, rfl⟩
    · simp only [hk, if_false]
      exact ih st

theorem itemsLoop_freq_at (k0 : String) (v0 : J) :
    ∀ (items : List (String × J)) (st : Stats),
    (∀ p ∈ items, p.1 ≠ k0) →
    (exceptState (itemsLoop st items)).freq k0 v0 = st.freq k0 v0 := by
  intro items
  induction items with
  | nil => intro st _; rfl
  | cons p rest ih =>
    intro st hne
    obtain ⟨k, v⟩ := p
    have hk0 : k ≠ k0 := hne (k, v) (List.mem_cons_self _ _)
    have hrest : ∀ p ∈ rest, p.1 ≠ k0 :=
      fun p hp => hne p (List.mem_cons_of_mem _ hp)
    unfold itemsLoop
    by_cases hk : k ∈ mainKeys
    · by_cases hv : hashable v = true
      · simp only [hk, if_true, hv]
        rw [ih _ hrest]
        simp [fBump_ne_key st.freq k k0 v (Ne.symm hk0)]
      · simp only [hk, if_true, hv]
        rfl
    · simp only [hk, if_false]
      exact ih st hrest

theorem itemsLoopP_freq_at (k0 : String) (v0 : J)
    (hk0 : k0 ∈ ["Confidentiality", "Integrity", "Availability"])
    (hv0 : ∀ c ∈ (["HIGH", "LOW", "NONE", "MEDIUM", "N/A"] : List String), v0 ≠ J.str c) :
    ∀ (items : List (String × J)) (st : Stats),
    (exceptState (itemsLoopP st items)).freq k0 v0 = st.freq k0 v0 := by
  intro items
  induction items with
  | nil => intro st; rfl
  | cons p rest ih =>
    intro st
    obtain ⟨k, v⟩ := p
    unfold itemsLoopP
    by_cases hk : k ∈ mainKeys
    · by_cases hv : hashable (normalizeIfCIA k v) = true
      · simp only [hk, if_true, hv]
        rw [ih]
        by_cases hkk : k = k0
        · have hcia : k ∈ ["Confidentiality", "Integrity", "Availability"] := by
            rw [hkk]; exact hk0
          unfold normalizeIfCIA
          simp only [hcia, if_true]
          rcases normalize_impact_cases v with h | h | h | h | h <;>
            rw [h] <;>
            exact fBump_str_at_ne st.freq k _ k0 v0 (hv0 _ (by simp))
        · exact congrFun (fBump_ne_key st.freq k k0 (normalizeIfCIA k v) (Ne.symm hkk)) v0
      · simp only [hk, if_true, hv]
        rfl
    · simp only [hk, if_false]
      exact ih st

theorem setKey_keys_in (names : List String) (m : List (String × J)) (k : String)
    (v : J) (hm : ∀ p ∈ m, p.1 ∈ names) (hk : k ∈ names) :
    ∀ p ∈ setKey m k v, p.1 ∈ names := by
  induction m with
  | nil =>
    intro p hp
    simp [setKey] at hp
    rw [hp]
    exact hk
  | cons q rest ih =>
    obtain ⟨qk, qv⟩ := q
    intro p hp
    unfold setKey at hp
    by_cases hqk : qk = k
    · simp only [hqk, if_true] at hp
      rcases List.mem_cons.mp hp with h | h
      · rw [h]; exact hk
      · exact hm p (List.mem_cons_of_mem _ h)
    · simp only [hqk, if_false] at hp
      rcases List.mem_cons.mp hp with h | h
      · rw [h]; exact hm (qk, qv) (List.mem_cons_self _ _)
      · exact ih (fun r hr => hm r (List.mem_cons_of_mem _ hr)) p h

theorem parseParts_keys (kn : String → Option String) (names : List String)
    (hkn : ∀ k n2, kn k = some n2 → n2 ∈ names) :
    ∀ (parts : List String) (m m2 : List (String × J)),
    parseParts kn m parts = some m2 → (∀ p ∈ m, p.1 ∈ names) →
    ∀ p ∈ m2, p.1 ∈ names := by
  intro parts
  induction parts with
  | nil =>
    intro m m2 hp hm
    simp [parseParts] at hp
    rw [← hp]
    exact hm
  | cons part rest ih =>
    intro m m2 hp hm
    unfold parseParts at hp
    by_cases hc : pyContainsChar part ':' = true
    · simp only [hc, if_true] at hp
      rcases hsp : pySplit ':' part with _ | ⟨a, tail⟩ <;> rw [hsp] at hp
      · simp at hp
      · rcases tail with _ | ⟨b, tail2⟩
        · simp at hp
        · rcases tail2 with _ | ⟨c, tail3⟩
          · rcases hkn2 : kn a with _ | name <;> simp only [hkn2] at hp
            · exact ih m m2 hp hm
            · exact ih _ m2 hp
                (setKey_keys_in names m name (J.str b) hm (hkn _ _ hkn2))
          · simp at hp
    · simp only [hc, if_false] at hp
      exact ih m m2 hp hm

theorem v3KeyName_mem (k n2 : String) (h : v3KeyName k = some n2) :
    n2 ∈ extractKeys := by
  unfold v3KeyName at h
  split_ifs at h <;> simp_all [extractKeys]

theorem v2KeyName_mem (k n2 : String) (h : v2KeyName k = some n2) :
    n2 ∈ extractKeys := by
  unfold v2KeyName at h
  split_ifs at h <;> simp_all [extractKeys]

theorem parse_vector_string_keys (s : String) (m : List (String × J))
    (h : parse_vector_string s = some m) : ∀ p ∈ m, p.1 ∈ extractKeys := by
  unfold parse_vector_string at h
  by_cases hs : s = ""
  · simp only [hs, if_true] at h
    intro p hp
    rw [← Option.some_inj.mp h] at hp
    fin_cases hp <;> simp [extractKeys]
  · simp only [hs, if_false] at h
    refine parseParts_keys v3KeyName extractKeys v3KeyName_mem _ _ _ h ?_
    intro p hp
    fin_cases hp <;> simp [extractKeys]

theorem parse_vector_string_v2_keys (s : String) (m : List (String × J))
    (h : parse_vector_string_v2 s = some m) : ∀ p ∈ m, p.1 ∈ extractKeys := by
  unfold parse_vector_string_v2 at h
  by_cases hs : s = ""
  · simp only [hs, if_true] at h
    intro p hp
    rw [← Option.some_inj.mp h] at hp
    fin_cases hp <;> simp [extractKeys]
  · simp only [hs, if_false] at h
    refine parseParts_keys v2KeyName extractKeys v2KeyName_mem _ _ _ h ?_
    intro p hp
    fin_cases hp <;> simp [extractKeys]

theorem v3Fields_keys (cvss : J) (m : List (String × J))
    (h : v3Fields cvss = some m) : ∀ p ∈ m, p.1 ∈ extractKeys := by
  cases cvss <;> simp [v3Fields, dGet] at h
  intro p hp
  rw [← h] at hp
  simp at hp
  rcases hp with h2 | h2 | h2 | h2 | h2 | h2 | h2 | h2 | h2 <;>
    rw [h2] <;> simp [extractKeys]

theorem v2Fields_keys (cvss : J) (m : List (String × J))
    (h : v2Fields cvss = some m) : ∀ p ∈ m, p.1 ∈ extractKeys := by
  cases cvss <;> simp [v2Fields, dGet] at h
  intro p hp
  rw [← h] at hp
  simp at hp
  rcases hp with h2 | h2 | h2 | h2 | h2 | h2 | h2 <;>
    rw [h2] <;> simp [extractKeys]

theorem versionBranch_keys
    (parse : String → Option (List (String × J)))
    (fields : J → Option (List (String × J))) (b : J) (key : String)
    (m : List (String × J))
    (hparse : ∀ s m2, parse s = some m2 → ∀ p ∈ m2, p.1 ∈ extractKeys)
    (hfields : ∀ cvss m2, fields cvss = some m2 → ∀ p ∈ m2, p.1 ∈ extractKeys)
    (h : versionBranch parse fields b key = some m) :
    ∀ p ∈ m, p.1 ∈ extractKeys := by
  unfold versionBranch at h
  rcases hidx : index b key with _ | cvss <;> simp only [hidx, Option.bind_eq_bind, Option.some_bind, Option.none_bind] at h
  · exact absurd h (by simp)
  rcases hvs : dGet cvss "vectorString" (J.str "") with _ | vs <;>
    simp only [hvs, Option.bind_eq_bind, Option.some_bind, Option.none_bind] at h
  · exact absurd h (by simp)
  by_cases ht : truthy vs = true
  · simp only [ht, if_true] at h
    cases vs with
    | str s => exact hparse s m h
    | null => exact absurd h (by simp)
    | bool x => exact absurd h (by simp)
    | num x => exact absurd h (by simp)
    | arr x => exact absurd h (by simp)
    | obj x => exact absurd h (by simp)
  · simp only [ht, if_false] at h
    exact hfields cvss m h

theorem extract_metrics_keys (b : J) (m : List (String × J))
    (h : extract_metrics b = some m) : ∀ p ∈ m, p.1 ∈ extractKeys := by
  unfold extract_metrics at h
  rcases h31 : memKey b "cvssV3_1" with _ | b31 <;> simp only [h31, Option.bind_eq_bind, Option.some_bind, Option.none_bind] at h
  · exact absurd h (by simp)
  cases b31 with
  | true =>
    simp only [if_true] at h
    exact versionBranch_keys _ _ _ _ _ parse_vector_string_keys v3Fields_keys h
  | false =>
    simp only [Bool.false_eq_true, if_false] at h
    rcases h30 : memKey b "cvssV3_0" with _ | b30 <;> simp only [h30, Option.bind_eq_bind, Option.some_bind, Option.none_bind] at h
    · exact absurd h (by simp)
    cases b30 with
    | true =>
      simp only [if_true] at h
      exact versionBranch_keys _ _ _ _ _ parse_vector_string_keys v3Fields_keys h
    | false =>
      simp only [Bool.false_eq_true, if_false] at h
      rcases h20 : memKey b "cvssV2_0" with _ | b20 <;> simp only [h20, Option.bind_eq_bind, Option.some_bind, Option.none_bind] at h
      · exact absurd h (by simp)
      cases b20 with
      | true =>
        simp only [if_true] at h
        exact versionBranch_keys _ _ _ _ _ parse_vector_string_v2_keys v2Fields_keys h
      | false =>
        simp only [Bool.false_eq_true, if_false, Option.some_inj] at h
        intro p hp
        rw [← h] at hp
        simp at hp

theorem extractKeys_ne_sevLevel (k : String) (h : k ∈ extractKeys) :
    k ≠ "SeverityLevel" := by
  fin_cases h <;> decide

theorem absorbBlock_sevNA (st : Stats) (b : J) :
    (exceptState (absorbBlock st b)).freq "SeverityLevel" (J.str "N/A") =
      st.freq "SeverityLevel" (J.str "N/A") := by
  unfold absorbBlock absorbBlockWith
  rcases hm : extract_metrics b with _ | metrics
  · simp only [hm]; rfl
  simp only [hm]
  have hkeys : ∀ p ∈ metrics, p.1 ≠ "SeverityLevel" :=
    fun p hp => extractKeys_ne_sevLevel _ (extract_metrics_keys b metrics hm p hp)
  have hloop : ∀ st' : Stats,
      (exceptState (itemsLoop st' metrics)).freq "SeverityLevel" (J.str "N/A") =
        st'.freq "SeverityLevel" (J.str "N/A") :=
    fun st' => itemsLoop_freq_at _ _ metrics st' hkeys
  by_cases he : metrics.isEmpty = true
  · rw [if_pos he]; rfl
  rw [if_neg he]
  rcases hs : extract_severity_from_cvss b with _ | sev
  · simp only [hs]; rfl
  simp only [hs]
  set st1 := if sev ≠ "N/A"
             then { st with freq := fBump st.freq "SeverityLevel" (J.str sev) }
             else st with hst1
  have hfreq1 : st1.freq "SeverityLevel" (J.str "N/A") =
      st.freq "SeverityLevel" (J.str "N/A") := by
    rw [hst1]
    by_cases hna : sev = "N/A"
    · rw [if_neg (by simp [hna])]
    · rw [if_pos hna]
      exact fBump_str_at_ne st.freq "SeverityLevel" sev "SeverityLevel" (J.str "N/A")
        (fun hh => hna (J.str.inj hh).symm)
  rcases h20 : memKey b "cvssV2_0" with _ | b20
  · exact hfreq1
  cases b20 with
  | true =>
    rcases ha : lookupKey metrics "Authentication" with _ | av
    · exact (hloop _).trans hfreq1
    cases hha : hashable av with
    | true => simp only [hha]; exact (hloop _).trans hfreq1
    | false => simp only [hha]; exact hfreq1
  | false =>
    rcases h30 : memKey b "cvssV3_0" with _ | b30
    · exact hfreq1
    cases b30 with
    | true => exact (hloop _).trans hfreq1
    | false =>
      rcases h31 : memKey b "cvssV3_1" with _ | b31
      · exact hfreq1
      cases b31 with
      | true => exact (hloop _).trans hfreq1
      | false => exact (hloop _).trans hfreq1

theorem itemsLoop_v23 (items : List (String × J)) (st' : Stats) :
    (exceptState (itemsLoop st' items)).v2Files = st'.v2Files ∧
    (exceptState (itemsLoop st' items)).v3Files = st'.v3Files := by
  obtain ⟨f, hf⟩ := itemsLoop_only_freq items st'
  rw [hf]
  exact ⟨rfl, rfl⟩

theorem itemsLoop_v23_le (items : List (String × J)) (st st' : Stats)
    (h : st'.v2Files + st'.v3Files ≤ st.v2Files + st.v3Files + 1) :
    (exceptState (itemsLoop st' items)).v2Files +
      (exceptState (itemsLoop st' items)).v3Files ≤
      st.v2Files + st.v3Files + 1 := by
  rw [(itemsLoop_v23 items st').1, (itemsLoop_v23 items st').2]
  exact h

theorem absorbBlock_version_le (st : Stats) (b : J) :
    (exceptState (absorbBlock st b)).v2Files + (exceptState (absorbBlock st b)).v3Files ≤
      st.v2Files + st.v3Files + 1 := by
  unfold absorbBlock absorbBlockWith
  rcases hm : extract_metrics b with _ | metrics
  · simp only [hm]
    exact (by omega : st.v2Files + st.v3Files ≤ st.v2Files + st.v3Files + 1)
  simp only [hm]
  by_cases he : metrics.isEmpty = true
  · rw [if_pos he]
    exact (by omega : st.v2Files + st.v3Files ≤ st.v2Files + st.v3Files + 1)
  rw [if_neg he]
  rcases hs : extract_severity_from_cvss b with _ | sev
  · exact (by omega : st.v2Files + st.v3Files ≤ st.v2Files + st.v3Files + 1)
  set st1 := if sev ≠ "N/A"
             then { st with freq := fBump st.freq "SeverityLevel" (J.str sev) }
             else st with hst1
  have hv2 : st1.v2Files = st.v2Files := by
    rw [hst1]; split_ifs <;> rfl
  have hv3 : st1.v3Files = st.v3Files := by
    rw [hst1]; split_ifs <;> rfl
  rcases h20 : memKey b "cvssV2_0" with _ | b20
  · exact (by rw [hv2, hv3]; omega :
      st1.v2Files + st1.v3Files ≤ st.v2Files + st.v3Files + 1)
  cases b20 with
  | true =>
    rcases ha : lookupKey metrics "Authentication" with _ | av
    · exact itemsLoop_v23_le metrics st _
        (by rw [hv2, hv3]; omega :
          st1.v2Files + 1 + st1.v3Files ≤ st.v2Files + st.v3Files + 1)
    cases hha : hashable av with
    | true =>
      simp only [hha]
      exact itemsLoop_v23_le metrics st _
        (by rw [hv2, hv3]; omega :
          st1.v2Files + 1 + st1.v3Files ≤ st.v2Files + st.v3Files + 1)
    | false =>
      simp only [hha]
      exact (by rw [hv2, hv3]; omega :
        st1.v2Files + 1 + st1.v3Files ≤ st.v2Files + st.v3Files + 1)
  | false =>
    rcases h30 : memKey b "cvssV3_0" with _ | b30
    · exact (by rw [hv2, hv3]; omega :
        st1.v2Files + st1.v3Files ≤ st.v2Files + st.v3Files + 1)
    cases b30 with
    | true =>
      exact itemsLoop_v23_le metrics st _
        (by rw [hv2, hv3]; omega :
          st1.v2Files + (st1.v3Files + 1) ≤ st.v2Files + st.v3Files + 1)
    | false =>
      rcases h31 : memKey b "cvssV3_1" with _ | b31
      · exact (by rw [hv2, hv3]; omega :
          st1.v2Files + st1.v3Files ≤ st.v2Files + st.v3Files + 1)
      cases b31 with
      | true =>
        exact itemsLoop_v23_le metrics st _
          (by rw [hv2, hv3]; omega :
            st1.v2Files + (st1.v3Files + 1) ≤ st.v2Files + st.v3Files + 1)
      | false =>
        exact itemsLoop_v23_le metrics st _
          (by rw [hv2, hv3]; omega :
            st1.v2Files + st1.v3Files ≤ st.v2Files + st.v3Files + 1)

theorem absorbBlockP_freq_at (k0 : String) (v0 : J)
    (hk0 : k0 ∈ ["Confidentiality", "Integrity", "Availability"])
    (hv0 : ∀ c ∈ (["HIGH", "LOW", "NONE", "MEDIUM", "N/A"] : List String), v0 ≠ J.str c)
    (st : Stats) (b : J) :
    (exceptState (absorbBlockP st b)).freq k0 v0 = st.freq k0 v0 := by
  have hks : k0 ≠ "SeverityLevel" := by fin_cases hk0 <;> decide
  unfold absorbBlockP absorbBlockWith
  rcases hm : extract_metrics b with _ | metrics
  · simp only [hm]; rfl
  simp only [hm]
  have hloop : ∀ st' : Stats,
      (exceptState (itemsLoopP st' metrics)).freq k0 v0 = st'.freq k0 v0 :=
    fun st' => itemsLoopP_freq_at k0 v0 hk0 hv0 metrics st'
  by_cases he : metrics.isEmpty = true
  · rw [if_pos he]; rfl
  rw [if_neg he]
  rcases hs : extract_severity_from_cvss b with _ | sev
  · simp only [hs]; rfl
  simp only [hs]
  set st1 := if sev ≠ "N/A"
             then { st with freq := fBump st.freq "SeverityLevel" (J.str sev) }
             else st with hst1
  have hfreq1 : st1.freq k0 v0 = st.freq k0 v0 := by
    rw [hst1]
    split_ifs
    · exact congrFun (fBump_ne_key st.freq "SeverityLevel" k0 (J.str sev) hks) v0
    · rfl
  rcases h20 : memKey b "cvssV2_0" with _ | b20
  · exact hfreq1
  cases b20 with
  | true =>
    rcases ha : lookupKey metrics "Authentication" with _ | av
    · exact (hloop _).trans hfreq1
    cases hha : hashable av with
    | true => simp only [hha]; exact (hloop _).trans hfreq1
    | false => simp only [hha]; exact hfreq1
  | false =>
    rcases h30 : memKey b "cvssV3_0" with _ | b30
    · exact hfreq1
    cases b30 with
    | true => exact (hloop _).trans hfreq1
    | false =>
      rcases h31 : memKey b "cvssV3_1" with _ | b31
      · exact hfreq1
      cases b31 with
      | true => exact (hloop _).trans hfreq1
      | false => exact (hloop _).trans hfreq1

theorem runBlocks_freq_at (body : Stats → J → Except Stats Stats) (k0 : String) (v0 : J)
    (hb : ∀ st b, (exceptState (body st b)).freq k0 v0 = st.freq k0 v0) :
    ∀ (blocks : List J) (st : Stats),
    (exceptState (runBlocks body st blocks)).freq k0 v0 = st.freq k0 v0 := by
  intro blocks
  induction blocks with
  | nil => intro st; rfl
  | cons b rest ih =>
    intro st
    have hb2 := hb st b
    unfold runBlocks
    rcases hres : body st b with e | st2 <;> rw [hres] at hb2
    · exact hb2
    · exact (ih st2).trans hb2

theorem adpLoop_freq_at (body : Stats → J → Except Stats Stats) (k0 : String) (v0 : J)
    (hb : ∀ st b, (exceptState (body st b)).freq k0 v0 = st.freq k0 v0) :
    ∀ (adps : List J) (st : Stats) (has : Bool),
    (exceptStateB (adpLoop body st has adps)).freq k0 v0 = st.freq k0 v0 := by
  intro adps
  induction adps with
  | nil => intro st has; rfl
  | cons adp rest ih =>
    intro st has
    unfold adpLoop
    rcases hg : dGet adp "metrics" (J.arr []) with _ | am
    · rfl
    simp only []
    cases htr : truthy am with
    | true =>
      rcases hit : pyIter am with _ | blocks
      · rfl
      simp only []
      have hrb := runBlocks_freq_at body k0 v0 hb blocks st
      rcases hres : runBlocks body st blocks with e | st2 <;> rw [hres] at hrb
      · exact hrb
      · exact (ih st2 true).trans hrb
    | false => exact ih st has

theorem cnaSection_freq_at (body : Stats → J → Except Stats Stats) (k0 : String) (v0 : J)
    (hb : ∀ st b, (exceptState (body st b)).freq k0 v0 = st.freq k0 v0)
    (st : Stats) (data : J) :
    (exceptStateB (cnaSection body st data)).freq k0 v0 = st.freq k0 v0 := by
  unfold cnaSection
  rcases hg : getCnaMetrics data with _ | cm
  · rfl
  simp only []
  cases htr : truthy cm with
  | true =>
    rcases hit : pyIter cm with _ | blocks
    · rfl
    simp only []
    have hrb := runBlocks_freq_at body k0 v0 hb blocks st
    rcases hres : runBlocks body st blocks with e | st2 <;> rw [hres] at hrb
    · exact hrb
    · exact hrb
  | false => rfl

theorem adpSection_freq_at (body : Stats → J → Except Stats Stats) (k0 : String) (v0 : J)
    (hb : ∀ st b, (exceptState (body st b)).freq k0 v0 = st.freq k0 v0)
    (st : Stats) (has : Bool) (data : J) :
    (exceptStateB (adpSection body st has data)).freq k0 v0 = st.freq k0 v0 := by
  unfold adpSection
  cases has with
  | true => rfl
  | false =>
    rcases hg : getAdpList data with _ | al
    · rfl
    simp only []
    rcases hit : pyIter al with _ | adps
    · rfl
    simp only []
    exact adpLoop_freq_at body k0 v0 hb adps st false

theorem legacySection_freq_at (k0 : String) (v0 : J)
    (hks : k0 ≠ "SeverityLevel") (hkb : k0 ≠ "baseSeverity")
    (st : Stats) (has : Bool) (data : J) :
    (exceptStateB (legacySection st has data)).freq k0 v0 = st.freq k0 v0 := by
  unfold legacySection
  cases has with
  | true => rfl
  | false =>
    rcases hg : dGet data "impact" (J.obj []) with _ | imp
    · rfl
    simp only []
    cases hd : isDict imp with
    | false => rfl
    | true =>
      rcases h3 : getLegacyV3 imp with _ | cv3
      · rfl
      simp only []
      cases htr : truthy cv3 with
      | true =>
        unfold legacyV3Body
        rcases hbs : dGetOpt cv3 "baseScore" with _ | bsc
        · rfl
        simp only []
        cases hnn : (!isNone bsc) with
        | false => rfl
        | true =>
          rcases hc : calculate_severity_from_score bsc "v3" with _ | sev
          · rfl
          simp only []
          have h2 : ∀ st2 : Stats, st2.freq k0 v0 = st.freq k0 v0 →
              ((if sev = "Critical" then
                  { st2 with freq := fBump st2.freq "baseSeverity" (J.str "CRITICAL") }
                else if sev = "High" then
                  { st2 with freq := fBump st2.freq "baseSeverity" (J.str "HIGH") }
                else if sev = "Medium" then
                  { st2 with freq := fBump st2.freq "baseSeverity" (J.str "MEDIUM") }
                else if sev = "Low" then
                  { st2 with freq := fBump st2.freq "baseSeverity" (J.str "LOW") }
                else st2) : Stats).freq k0 v0 = st.freq k0 v0 := by
            intro st2 hst2
            split_ifs <;>
              first
              | exact (congrFun (fBump_ne_key st2.freq "baseSeverity" k0 _ hkb) v0).trans hst2
              | exact hst2
          exact h2 _ (congrFun (fBump_ne_key st.freq "SeverityLevel" k0 (J.str sev) hks) v0)
      | false =>
        rcases h2 : getLegacyV2 imp with _ | cv2
        · rfl
        simp only []
        cases htr2 : truthy cv2 with
        | false => rfl
        | true =>
          unfold legacyV2Body
          rcases hbs : dGetOpt cv2 "baseScore" with _ | bsc
          · rfl
          simp only []
          cases hnn : (!isNone bsc) with
          | false => rfl
          | true =>
            rcases hc : calculate_severity_from_score bsc "v2" with _ | sev
            · rfl
            simp only []
            have h4 : ∀ st2 : Stats, st2.freq k0 v0 = st.freq k0 v0 →
                ((if sev = "High" then
                    { st2 with freq := fBump st2.freq "baseSeverity" (J.str "HIGH") }
                  else if sev = "Medium" then
                    { st2 with freq := fBump st2.freq "baseSeverity" (J.str "MEDIUM") }
                  else if sev = "Low" then
                    { st2 with freq := fBump st2.freq "baseSeverity" (J.str "LOW") }
                  else st2) : Stats).freq k0 v0 = st.freq k0 v0 := by
              intro st2 hst2
              split_ifs <;>
                first
                | exact (congrFun (fBump_ne_key st2.freq "baseSeverity" k0 _ hkb) v0).trans hst2
                | exact hst2
            exact h4 _ (congrFun (fBump_ne_key st.freq "SeverityLevel" k0 (J.str sev) hks) v0)

theorem processDataWith_freq_at (body : Stats → J → Except Stats Stats)
    (k0 : String) (v0 : J)
    (hb : ∀ st b, (exceptState (body st b)).freq k0 v0 = st.freq k0 v0)
    (hks : k0 ≠ "SeverityLevel") (hkb : k0 ≠ "baseSeverity")
    (st : Stats) (data : J) :
    (exceptState (processDataWith body st data)).freq k0 v0 = st.freq k0 v0 := by
  unfold processDataWith
  have hcna := cnaSection_freq_at body k0 v0 hb st data
  rcases hc : cnaSection body st data with e | ⟨st1, h1⟩ <;> rw [hc] at hcna
  · exact hcna
  simp only []
  have hadp := adpSection_freq_at body k0 v0 hb st1 h1 data
  rcases ha : adpSection body st1 h1 data with e | ⟨st2, h2⟩ <;> rw [ha] at hadp
  · exact hadp.trans hcna
  simp only []
  have hleg := legacySection_freq_at k0 v0 hks hkb st2 h2 data
  rcases hl : legacySection st2 h2 data with e | ⟨st3, h3⟩ <;> rw [hl] at hleg
  · exact (hleg.trans hadp).trans hcna
  simp only []
  have hfin : ((if h3 then { st3 with filesWithMetrics := st3.filesWithMetrics + 1 }
                else st3) : Stats).freq k0 v0 = st3.freq k0 v0 := by
    split_ifs <;> rfl
  exact (hfin.trans hleg).trans (hadp.trans hcna)

theorem processFileWith_freq_at (body : Stats → J → Except Stats Stats)
    (k0 : String) (v0 : J)
    (hb : ∀ st b, (exceptState (body st b)).freq k0 v0 = st.freq k0 v0)
    (hks : k0 ≠ "SeverityLevel") (hkb : k0 ≠ "baseSeverity")
    (st : Stats) (input : Option J) :
    (processFileWith body st input).freq k0 v0 = st.freq k0 v0 := by
  unfold processFileWith
  rcases input with _ | data
  · rfl
  simp only []
  have hpd := processDataWith_freq_at body k0 v0 hb hks hkb
    { st with totalFiles := st.totalFiles + 1 } data
  rcases hd : processDataWith body { st with totalFiles := st.totalFiles + 1 } data
    with e | st2 <;> rw [hd] at hpd
  · exact hpd
  · exact hpd

theorem cnaSection_ok_false (body : Stats → J → Except Stats Stats)
    (st : Stats) (data : J) (st2 : Stats)
    (h : cnaSection body st data = .ok (st2, false)) : st2 = st := by
  unfold cnaSection at h
  rcases hg : getCnaMetrics data with _ | cm <;> rw [hg] at h
  · exact absurd h (by simp)
  simp only [] at h
  cases htr : truthy cm <;> rw [htr] at h
  · simp only [Bool.false_eq_true, if_false, Except.ok.injEq, Prod.mk.injEq] at h
    exact h.1.symm
  · simp only [if_true] at h
    rcases hit : pyIter cm with _ | blocks <;> rw [hit] at h
    · exact absurd h (by simp)
    simp only [] at h
    rcases hres : runBlocks body st blocks with e | st3 <;> rw [hres] at h
    · exact absurd h (by simp)
    · simp at h

theorem adpLoop_true_flag (body : Stats → J → Except Stats Stats) :
    ∀ (adps : List J) (st st2 : Stats) (h2 : Bool),
    adpLoop body st true adps = .ok (st2, h2) → h2 = true := by
  intro adps
  induction adps with
  | nil =>
    intro st st2 h2 h
    unfold adpLoop at h
    simp only [Except.ok.injEq, Prod.mk.injEq] at h
    exact h.2.symm
  | cons adp rest ih =>
    intro st st2 h2 h
    unfold adpLoop at h
    rcases hg : dGet adp "metrics" (J.arr []) with _ | am <;> rw [hg] at h
    · exact absurd h (by simp)
    simp only [] at h
    cases htr : truthy am <;> rw [htr] at h
    · exact ih st st2 h2 h
    · simp only [if_true] at h
      rcases hit : pyIter am with _ | blocks <;> rw [hit] at h
      · exact absurd h (by simp)
      simp only [] at h
      rcases hres : runBlocks body st blocks with e | st3 <;> rw [hres] at h
      · exact absurd h (by simp)
      · exact ih st3 st2 h2 h

theorem adpLoop_ok_false (body : Stats → J → Except Stats Stats) :
    ∀ (adps : List J) (st : Stats) (has : Bool) (st2 : Stats),
    adpLoop body st has adps = .ok (st2, false) → st2 = st ∧ has = false := by
  intro adps
  induction adps with
  | nil =>
    intro st has st2 h
    unfold adpLoop at h
    simp only [Except.ok.injEq, Prod.mk.injEq] at h
    exact ⟨h.1.symm, h.2⟩
  | cons adp rest ih =>
    intro st has st2 h
    unfold adpLoop at h
    rcases hg : dGet adp "metrics" (J.arr []) with _ | am <;> rw [hg] at h
    · exact absurd h (by simp)
    simp only [] at h
    cases htr : truthy am <;> rw [htr] at h
    · exact ih st has st2 h
    · simp only [if_true] at h
      rcases hit : pyIter am with _ | blocks <;> rw [hit] at h
      · exact absurd h (by simp)
      simp only [] at h
      rcases hres : runBlocks body st blocks with e | st3 <;> rw [hres] at h
      · exact absurd h (by simp)
      · exact absurd (adpLoop_true_flag body rest st3 st2 false h) (by simp)

theorem adpSection_ok_false (body : Stats → J → Except Stats Stats)
    (st : Stats) (data : J) (st2 : Stats)
    (h : adpSection body st false data = .ok (st2, false)) : st2 = st := by
  unfold adpSection at h
  simp only [Bool.false_eq_true, if_false] at h
  rcases hg : getAdpList data with _ | al <;> rw [hg] at h
  · exact absurd h (by simp)
  simp only [] at h
  rcases hit : pyIter al with _ | adps <;> rw [hit] at h
  · exact absurd h (by simp)
  simp only [] at h
  exact (adpLoop_ok_false body adps st false st2 h).1

theorem cnaSection_flag_of_truthy (body : Stats → J → Except Stats Stats)
    (st : Stats) (data : J) (cm : J) (st2 : Stats) (h2 : Bool)
    (hg : getCnaMetrics data = some cm) (htr : truthy cm = true)
    (h : cnaSection body st data = .ok (st2, h2)) : h2 = true := by
  unfold cnaSection at h
  rw [hg] at h
  simp only [] at h
  rw [htr] at h
  simp only [if_true] at h
  rcases hit : pyIter cm with _ | blocks <;> rw [hit] at h
  · exact absurd h (by simp)
  simp only [] at h
  rcases hres : runBlocks body st blocks with e | st3 <;> rw [hres] at h
  · exact absurd h (by simp)
  · simp only [Except.ok.injEq, Prod.mk.injEq] at h
    exact h.2.symm

theorem legacySection_version_le (st : Stats) (data : J) :
    (exceptStateB (legacySection st false data)).v2Files +
      (exceptStateB (legacySection st false data)).v3Files ≤
      st.v2Files + st.v3Files + 1 := by
  unfold legacySection
  simp only [Bool.false_eq_true, if_false]
  rcases hg : dGet data "impact" (J.obj []) with _ | imp
  · exact (by omega : st.v2Files + st.v3Files ≤ st.v2Files + st.v3Files + 1)
  simp only []
  cases hd : isDict imp with
  | false => exact (by omega : st.v2Files + st.v3Files ≤ st.v2Files + st.v3Files + 1)
  | true =>
    rcases h3 : getLegacyV3 imp with _ | cv3
    · exact (by omega : st.v2Files + st.v3Files ≤ st.v2Files + st.v3Files + 1)
    simp only []
    cases htr : truthy cv3 with
    | true =>
      unfold legacyV3Body
      rcases hbs : dGetOpt cv3 "baseScore" with _ | bsc
      · exact (by omega : st.v2Files + (st.v3Files + 1) ≤ st.v2Files + st.v3Files + 1)
      simp only []
      cases hnn : (!isNone bsc) with
      | false => exact (by omega : st.v2Files + (st.v3Files + 1) ≤ st.v2Files + st.v3Files + 1)
      | true =>
        rcases hc : calculate_severity_from_score bsc "v3" with _ | sev
        · exact (by omega : st.v2Files + (st.v3Files + 1) ≤ st.v2Files + st.v3Files + 1)
        simp only []
        split_ifs <;>
          exact (by omega : st.v2Files + (st.v3Files + 1) ≤ st.v2Files + st.v3Files + 1)
    | false =>
      rcases h2 : getLegacyV2 imp with _ | cv2
      · exact (by omega : st.v2Files + st.v3Files ≤ st.v2Files + st.v3Files + 1)
      simp only []
      cases htr2 : truthy cv2 with
      | false => exact (by omega : st.v2Files + st.v3Files ≤ st.v2Files + st.v3Files + 1)
      | true =>
        unfold legacyV2Body
        rcases hbs : dGetOpt cv2 "baseScore" with _ | bsc
        · exact (by omega : st.v2Files + 1 + st.v3Files ≤ st.v2Files + st.v3Files + 1)
        simp only []
        cases hnn : (!isNone bsc) with
        | false => exact (by omega : st.v2Files + 1 + st.v3Files ≤ st.v2Files + st.v3Files + 1)
        | true =>
          rcases hc : calculate_severity_from_score bsc "v2" with _ | sev
          · exact (by omega : st.v2Files + 1 + st.v3Files ≤ st.v2Files + st.v3Files + 1)
          simp only []
          split_ifs <;>
            first
            | exact (by omega : st.v2Files + 1 + st.v3Files ≤ st.v2Files + st.v3Files + 1)
            | exact False.elim (by assumption)

theorem absorbBlock_after_sev (st : Stats) (b : J) (metrics : List (String × J))
    (sev : String) (v : J)
    (hm : extract_metrics b = some metrics) (hne : metrics.isEmpty = false)
    (hs : extract_severity_from_cvss b = some sev) :
    (exceptState (absorbBlock st b)).freq "SeverityLevel" v =
      (if sev ≠ "N/A"
       then { st with freq := fBump st.freq "SeverityLevel" (J.str sev) }
       else st).freq "SeverityLevel" v := by
  have hkeys : ∀ p ∈ metrics, p.1 ≠ "SeverityLevel" :=
    fun p hp => extractKeys_ne_sevLevel _ (extract_metrics_keys b metrics hm p hp)
  have hloop : ∀ st2 : Stats,
      (exceptState (itemsLoop st2 metrics)).freq "SeverityLevel" v =
        st2.freq "SeverityLevel" v :=
    fun st2 => itemsLoop_freq_at _ _ metrics st2 hkeys
  unfold absorbBlock absorbBlockWith
  simp only [hm]
  rw [if_neg (by simp [hne])]
  simp only [hs]
  set st1 := if sev ≠ "N/A"
             then { st with freq := fBump st.freq "SeverityLevel" (J.str sev) }
             else st with hst1
  rcases h20 : memKey b "cvssV2_0" with _ | b20
  · rfl
  cases b20 with
  | true =>
    rcases ha : lookupKey metrics "Authentication" with _ | av
    · exact hloop _
    cases hha : hashable av with
    | true => simp only [hha]; exact hloop _
    | false => simp only [hha]; rfl
  | false =>
    rcases h30 : memKey b "cvssV3_0" with _ | b30
    · rfl
    cases b30 with
    | true => exact hloop _
    | false =>
      rcases h31 : memKey b "cvssV3_1" with _ | b31
      · rfl
      cases b31 with
      | true => exact hloop _
      | false => exact hloop _

theorem absorbBlock_version_exact (st : Stats) (b : J) (metrics : List (String × J))
    (sev : String)
    (hm : extract_metrics b = some metrics) (hne : metrics.isEmpty = false)
    (hs : extract_severity_from_cvss b = some sev) :
    (memKey b "cvssV2_0" = some true →
       (exceptState (absorbBlock st b)).v2Files = st.v2Files + 1 ∧
       (exceptState (absorbBlock st b)).v3Files = st.v3Files) ∧
    (memKey b "cvssV2_0" = some false →
       (memKey b "cvssV3_0" = some true ∨
        (memKey b "cvssV3_0" = some false ∧ memKey b "cvssV3_1" = some true)) →
       (exceptState (absorbBlock st b)).v2Files = st.v2Files ∧
       (exceptState (absorbBlock st b)).v3Files = st.v3Files + 1) ∧
    (memKey b "cvssV2_0" = some false → memKey b "cvssV3_0" = some false →
       memKey b "cvssV3_1" = some false →
       (exceptState (absorbBlock st b)).v2Files = st.v2Files ∧
       (exceptState (absorbBlock st b)).v3Files = st.v3Files) := by
  unfold absorbBlock absorbBlockWith
  simp only [hm]
  rw [if_neg (by simp [hne])]
  simp only [hs]
  set st1 := if sev ≠ "N/A"
             then { st with freq := fBump st.freq "SeverityLevel" (J.str sev) }
             else st with hst1
  have hv2 : st1.v2Files = st.v2Files := by
    rw [hst1]; split_ifs <;> rfl
  have hv3 : st1.v3Files = st.v3Files := by
    rw [hst1]; split_ifs <;> rfl
  refine ⟨?_, ?_, ?_⟩
  · intro h20
    rw [h20]
    rcases ha : lookupKey metrics "Authentication" with _ | av
    · exact ⟨((itemsLoop_v23 metrics _).1).trans
          (show st1.v2Files + 1 = st.v2Files + 1 by rw [hv2]),
        ((itemsLoop_v23 metrics _).2).trans hv3⟩
    cases hha : hashable av with
    | true =>
      simp only [hha]
      exact ⟨((itemsLoop_v23 metrics _).1).trans
          (show st1.v2Files + 1 = st.v2Files + 1 by rw [hv2]),
        ((itemsLoop_v23 metrics _).2).trans hv3⟩
    | false =>
      simp only [hha]
      exact ⟨show st1.v2Files + 1 = st.v2Files + 1 by rw [hv2], hv3⟩
  · intro h20 h3
    rw [h20]
    rcases h3 with h30 | ⟨h30, h31⟩
    · rw [h30]
      exact ⟨((itemsLoop_v23 metrics _).1).trans hv2,
        ((itemsLoop_v23 metrics _).2).trans
          (show st1.v3Files + 1 = st.v3Files + 1 by rw [hv3])⟩
    · rw [h30, h31]
      exact ⟨((itemsLoop_v23 metrics _).1).trans hv2,
        ((itemsLoop_v23 metrics _).2).trans
          (show st1.v3Files + 1 = st.v3Files + 1 by rw [hv3])⟩
  · intro h20 h30 h31
    rw [h20, h30, h31]
    exact ⟨((itemsLoop_v23 metrics _).1).trans hv2,
      ((itemsLoop_v23 metrics _).2).trans hv3⟩


/-! ## Claim theorems -/

/-- C1 (counterexample): the claim that `parse_vector_string` /
`parse_vector_string_v2` terminate without raising on every input string is
false: a segment with two colons makes `key, value = part.split(':')` raise
`ValueError`, so both parsers raise on the input `"A:B:C"`. -/
theorem parseVector_raises_on_double_colon_segment :
    parse_vector_string "A:B:C" = none ∧ parse_vector_string_v2 "A:B:C" = none :=
  ⟨rfl, rfl⟩

/-- C1 (amended): for every input string whose `/`-segments each contain at
most one colon, both parsers terminate without raising and return a map
containing every key of their grammar; segments without a colon are skipped
(a segment with two or more colons raises `ValueError` instead of being
skipped). -/
theorem parseVector_total_on_single_colon_segments (s : String)
    (h : ∀ part ∈ pySplit '/' s, part.data.count ':' ≤ 1) :
    (∃ m, parse_vector_string s = some m ∧
       ∀ k ∈ (["Confidentiality", "Integrity", "Availability", "Attack Vector",
               "Attack Complexity", "Privileges Required", "User Interaction",
               "Scope", "baseSeverity"] : List String), (lookupKey m k).isSome = true) ∧
    (∃ m, parse_vector_string_v2 s = some m ∧
       ∀ k ∈ (["Confidentiality", "Integrity", "Availability", "Attack Vector",
               "Attack Complexity", "Authentication", "baseSeverity"] : List String),
         (lookupKey m k).isSome = true) := by
  constructor
  · unfold parse_vector_string
    by_cases hs : s = ""
    · refine ⟨v3init, by rw [if_pos hs], ?_⟩
      intro k hk
      fin_cases hk <;> decide
    · obtain ⟨m2, hm2, hmono⟩ := parseParts_ok v3KeyName (pySplit '/' s) v3init h
      refine ⟨m2, by rw [if_neg hs]; exact hm2, ?_⟩
      intro k hk
      apply hmono
      fin_cases hk <;> decide
  · unfold parse_vector_string_v2
    by_cases hs : s = ""
    · refine ⟨v2init, by rw [if_pos hs], ?_⟩
      intro k hk
      fin_cases hk <;> decide
    · obtain ⟨m2, hm2, hmono⟩ := parseParts_ok v2KeyName (pySplit '/' s) v2init h
      refine ⟨m2, by rw [if_neg hs]; exact hm2, ?_⟩
      intro k hk
      apply hmono
      fin_cases hk <;> decide

/-- C1 (witness): the amended parser-totality theorem instantiated at the
concrete vector string `"AV:N/AC:L/C:H"`. -/
theorem parseVector_total_witness :
    (∀ part ∈ pySplit '/' "AV:N/AC:L/C:H", part.data.count ':' ≤ 1) ∧
    ((∃ m, parse_vector_string "AV:N/AC:L/C:H" = some m ∧
       ∀ k ∈ (["Confidentiality", "Integrity", "Availability", "Attack Vector",
               "Attack Complexity", "Privileges Required", "User Interaction",
               "Scope", "baseSeverity"] : List String), (lookupKey m k).isSome = true) ∧
     (∃ m, parse_vector_string_v2 "AV:N/AC:L/C:H" = some m ∧
       ∀ k ∈ (["Confidentiality", "Integrity", "Availability", "Attack Vector",
               "Attack Complexity", "Authentication", "baseSeverity"] : List String),
         (lookupKey m k).isSome = true)) :=
  ⟨by decide, parseVector_total_on_single_colon_segments "AV:N/AC:L/C:H" (by decide)⟩

/-- C3 (counterexample): a document whose `json.load` fails is still counted
in the total-files counter (the claim says a decode-failing document is
excluded from the total-documents count); it is excluded from the
files-processed and files-with-metrics counters. -/
theorem decode_failure_counted_in_total :
    (process_json_files [none]).totalFiles = 1 ∧
    (process_json_files [none]).errors = 1 ∧
    (process_json_files [none]).filesProcessed = 0 ∧
    (process_json_files [none]).filesWithMetrics = 0 :=
  ⟨rfl, rfl, rfl, rfl⟩

/-- C3 (amended): a document that fails to decode is reported as a
per-document error and still counted in the total-files counter, but
contributes to nothing else: the resulting state differs from the input
state only in `totalFiles` and `errors` (every frequency table, the
files-processed, files-with-metrics and version counters are untouched). -/
theorem processFile_none_total_and_error_only (st : Stats) :
    processFile st none =
      { st with totalFiles := st.totalFiles + 1, errors := st.errors + 1 } :=
  rfl

/-- C8: severity derivation from a numeric base score follows the
version-specific thresholds: under `"v3"`, `≥ 9.0` gives Critical, `≥ 7.0`
High, `≥ 4.0` Medium, `≥ 0.1` Low, else `'N/A'`; under `"v2"` there is no
Critical tier, so the score `9.8` (the rational `49/5`) gives High, with the
same High/Medium/Low thresholds. -/
theorem severity_threshold_table (q : ℚ) :
    (calculate_severity_from_score (J.num q) "v3" = some "Critical" ↔ 9 ≤ q) ∧
    (calculate_severity_from_score (J.num q) "v3" = some "High" ↔ 7 ≤ q ∧ q < 9) ∧
    (calculate_severity_from_score (J.num q) "v3" = some "Medium" ↔ 4 ≤ q ∧ q < 7) ∧
    (calculate_severity_from_score (J.num q) "v3" = some "Low" ↔ 1/10 ≤ q ∧ q < 4) ∧
    (calculate_severity_from_score (J.num q) "v3" = some "N/A" ↔ q < 1/10) ∧
    (calculate_severity_from_score (J.num q) "v2" ≠ some "Critical") ∧
    (calculate_severity_from_score (J.num q) "v2" = some "High" ↔ 7 ≤ q) ∧
    (calculate_severity_from_score (J.num q) "v2" = some "Medium" ↔ 4 ≤ q ∧ q < 7) ∧
    (calculate_severity_from_score (J.num q) "v2" = some "Low" ↔ 1/10 ≤ q ∧ q < 4) ∧
    (calculate_severity_from_score (J.num q) "v2" = some "N/A" ↔ q < 1/10) ∧
    calculate_severity_from_score (J.num (49/5)) "v3" = some "Critical" ∧
    calculate_severity_from_score (J.num (49/5)) "v2" = some "High" := by
  have h10 : mkRat 1 10 = (1 : ℚ)/10 := by
    rw [Rat.mkRat_eq_div]; norm_num
  have hv3 : ∀ r : ℚ, calculate_severity_from_score (J.num r) "v3" =
      some (if r ≥ 9 then "Critical" else if r ≥ 7 then "High"
            else if r ≥ 4 then "Medium" else if r ≥ (1 : ℚ)/10 then "Low"
            else "N/A") := by
    intro r
    rw [← h10]
    rfl
  have hv2 : ∀ r : ℚ, calculate_severity_from_score (J.num r) "v2" =
      some (if r ≥ 7 then "High" else if r ≥ 4 then "Medium"
            else if r ≥ (1 : ℚ)/10 then "Low" else "N/A") := by
    intro r
    rw [← h10]
    rfl
  refine ⟨?_, ?_, ?_, ?_, ?_, ?_, ?_, ?_, ?_, ?_, ?_, ?_⟩
  · rw [hv3]; split_ifs <;> simp <;>
      first
      | linarith
      | (constructor <;> linarith)
      | (intro h5; linarith)
      | (intro h5 h6; linarith)
  · rw [hv3]; split_ifs <;> simp <;>
      first
      | linarith
      | (constructor <;> linarith)
      | (intro h5; linarith)
      | (intro h5 h6; linarith)
  · rw [hv3]; split_ifs <;> simp <;>
      first
      | linarith
      | (constructor <;> linarith)
      | (intro h5; linarith)
      | (intro h5 h6; linarith)
  · rw [hv3]; split_ifs <;> simp <;>
      first
      | linarith
      | (constructor <;> linarith)
      | (intro h5; linarith)
      | (intro h5 h6; linarith)
  · rw [hv3]; split_ifs <;> simp <;>
      first
      | linarith
      | (constructor <;> linarith)
      | (intro h5; linarith)
      | (intro h5 h6; linarith)
  · rw [hv2]; split_ifs <;> simp
  · rw [hv2]; split_ifs <;> simp <;>
      first
      | linarith
      | (constructor <;> linarith)
      | (intro h5; linarith)
      | (intro h5 h6; linarith)
  · rw [hv2]; split_ifs <;> simp <;>
      first
      | linarith
      | (constructor <;> linarith)
      | (intro h5; linarith)
      | (intro h5 h6; linarith)
  · rw [hv2]; split_ifs <;> simp <;>
      first
      | linarith
      | (constructor <;> linarith)
      | (intro h5; linarith)
      | (intro h5 h6; linarith)
  · rw [hv2]; split_ifs <;> simp <;>
      first
      | linarith
      | (constructor <;> linarith)
      | (intro h5; linarith)
      | (intro h5 h6; linarith)
  · rw [hv3]; norm_num
  · rw [hv2]; norm_num

/-- C9: the impact-value normalization of `cvss_metric_plot.py` is
idempotent: renormalizing a normalized value changes nothing. -/
theorem normalize_impact_idempotent (v : J) :
    normalize_impact (J.str (normalize_impact v)) = normalize_impact v := by
  rcases normalize_impact_cases v with h | h | h | h | h <;>
    rw [h] <;> simp only [normalize_impact, pyStr] <;> decide

/-- C2 (counterexample): in `cvss_metrics.py` the CIA values are folded into
the frequency tables without normalization: a block carrying the
single-letter direct-field value `"H"` is counted under the raw key `"H"`,
which is none of the five canonical values. -/
theorem cia_counted_raw_in_metrics_script :
    (processFile initStats (some rawLetterImpactDoc)).freq "Confidentiality" (J.str "H") = 1 ∧
    ("H" ≠ "HIGH" ∧ "H" ≠ "LOW" ∧ "H" ≠ "NONE" ∧ "H" ≠ "MEDIUM" ∧ "H" ≠ "N/A") :=
  ⟨rfl, by decide⟩

/-- C2 (amended): in `cvss_metric_plot.py` the CIA values are passed through
`normalize_impact` before counting, so the Confidentiality / Integrity /
Availability counters never change at any value outside
`{HIGH, LOW, NONE, MEDIUM, N/A}`; in `cvss_metrics.py` the values are counted
raw (see the counterexample). -/
theorem plot_cia_counters_only_canonical (st : Stats) (input : Option J)
    (k0 : String) (v0 : J)
    (hk0 : k0 ∈ (["Confidentiality", "Integrity", "Availability"] : List String))
    (hv0 : ∀ c ∈ (["HIGH", "LOW", "NONE", "MEDIUM", "N/A"] : List String), v0 ≠ J.str c) :
    (processFileP st input).freq k0 v0 = st.freq k0 v0 := by
  have hks : k0 ≠ "SeverityLevel" := by fin_cases hk0 <;> decide
  have hkb : k0 ≠ "baseSeverity" := by fin_cases hk0 <;> decide
  exact processFileWith_freq_at absorbBlockP k0 v0
    (absorbBlockP_freq_at k0 v0 hk0 hv0) hks hkb st input

/-- C2 (witness): the plot-script normalization theorem instantiated at the
raw-letter document and the non-canonical value `"H"`. -/
theorem plot_cia_counters_only_canonical_witness :
    ("Confidentiality" ∈ (["Confidentiality", "Integrity", "Availability"] : List String)) ∧
    (∀ c ∈ (["HIGH", "LOW", "NONE", "MEDIUM", "N/A"] : List String), J.str "H" ≠ J.str c) ∧
    (processFileP initStats (some rawLetterImpactDoc)).freq "Confidentiality" (J.str "H") =
      initStats.freq "Confidentiality" (J.str "H") := by
  have hv0 : ∀ c ∈ (["HIGH", "LOW", "NONE", "MEDIUM", "N/A"] : List String),
      J.str "H" ≠ J.str c := by
    intro c hc
    fin_cases hc <;> exact fun h => absurd (J.str.inj h) (by decide)
  exact ⟨by decide, hv0,
    plot_cia_counters_only_canonical initStats (some rawLetterImpactDoc)
      "Confidentiality" (J.str "H") (by decide) hv0⟩

/-- C4 (counterexample): on the legacy (`impact`) path the severity-label
counter is incremented with no `'N/A'` guard: a legacy document whose
`cvssV3` block has base score `0.0` (below every threshold) increments
`SeverityLevel` at the `'N/A'` sentinel. -/
theorem severity_counter_incremented_at_na_on_legacy_path :
    (processFile initStats (some legacyZeroScoreDoc)).freq "SeverityLevel" (J.str "N/A") = 1 ∧
    initStats.freq "SeverityLevel" (J.str "N/A") = 0 :=
  ⟨rfl, rfl⟩

/-- C4 (amended): on the cna/adp extraction paths (the shared per-block
body), the severity-label counter is incremented exactly when the resolved
label is not `'N/A'`: for a processed block it gains exactly one at the
resolved label when that label is not `'N/A'`, it changes nowhere when the
label is `'N/A'`, and its count at `'N/A'` never changes for any block; but
on the legacy impact path it is incremented whenever a base score is
present, even when the derived label is `'N/A'`. -/
theorem severity_counter_na_guard :
    (∀ (st : Stats) (b : J) (metrics : List (String × J)) (sev : String),
      extract_metrics b = some metrics → metrics.isEmpty = false →
      extract_severity_from_cvss b = some sev →
      (sev ≠ "N/A" →
        (exceptState (absorbBlock st b)).freq "SeverityLevel" (J.str sev) =
          st.freq "SeverityLevel" (J.str sev) + 1) ∧
      (sev = "N/A" → ∀ v : J,
        (exceptState (absorbBlock st b)).freq "SeverityLevel" v =
          st.freq "SeverityLevel" v)) ∧
    (∀ (st : Stats) (b : J),
      (exceptState (absorbBlock st b)).freq "SeverityLevel" (J.str "N/A") =
        st.freq "SeverityLevel" (J.str "N/A")) ∧
    (processFile initStats (some legacyZeroScoreDoc)).freq "SeverityLevel" (J.str "N/A") = 1 := by
  refine ⟨?_, absorbBlock_sevNA, rfl⟩
  intro st b metrics sev hm hne hs
  constructor
  · intro hna
    rw [absorbBlock_after_sev st b metrics sev (J.str sev) hm hne hs, if_pos hna]
    show fBump st.freq "SeverityLevel" (J.str sev) "SeverityLevel" (J.str sev) =
      st.freq "SeverityLevel" (J.str sev) + 1
    unfold fBump cBump
    simp [jeq]
  · intro hna v
    rw [absorbBlock_after_sev st b metrics sev v hm hne hs, if_neg (by simp [hna])]

/-- C4 (witness): the guard theorem instantiated at the score-only v3.1
block, whose resolved label is Medium: the severity counter at Medium gains
exactly one. -/
theorem severity_counter_na_guard_witness :
    (extract_metrics scoreOnlyV3Block = some v3init) ∧
    (v3init.isEmpty = false) ∧
    (extract_severity_from_cvss scoreOnlyV3Block = some "Medium") ∧
    ("Medium" ≠ "N/A") ∧
    (exceptState (absorbBlock initStats scoreOnlyV3Block)).freq "SeverityLevel"
        (J.str "Medium") =
      initStats.freq "SeverityLevel" (J.str "Medium") + 1 :=
  ⟨rfl, rfl, rfl, by decide,
   (severity_counter_na_guard.1 initStats scoreOnlyV3Block v3init "Medium"
      rfl rfl rfl).1 (by decide)⟩

/-- C5 (counterexample): standard-version usage is not tracked per document:
a single document whose primary metrics list holds two v3.1 score blocks
increments the v3.x counter twice. -/
theorem version_counter_per_block_not_per_document :
    (processFile initStats (some twoV3BlocksDoc)).v3Files = 2 ∧
    (processFile initStats (some twoV3BlocksDoc)).totalFiles = 1 :=
  ⟨rfl, rfl⟩

/-- C5 (amended): the v2/v3 standard-version counters are incremented per
accepted score block, not per document: a processed cna/adp block carrying
the `cvssV2_0` key adds exactly one to the v2 counter (and nothing to v3), a
block carrying a v3 key (and not `cvssV2_0`) adds exactly one to the v3
counter (and nothing to v2), a block with none of the keys adds nothing,
every block adds at most one to the sum, the legacy tier adds at most one
per document — so a document with two v3 blocks adds two, and a document
with one v3 and one v2 block increments both counters. -/
theorem version_counters_per_block :
    (∀ (st : Stats) (b : J) (metrics : List (String × J)) (sev : String),
      extract_metrics b = some metrics → metrics.isEmpty = false →
      extract_severity_from_cvss b = some sev →
      (memKey b "cvssV2_0" = some true →
        (exceptState (absorbBlock st b)).v2Files = st.v2Files + 1 ∧
        (exceptState (absorbBlock st b)).v3Files = st.v3Files) ∧
      (memKey b "cvssV2_0" = some false →
        (memKey b "cvssV3_0" = some true ∨
         (memKey b "cvssV3_0" = some false ∧ memKey b "cvssV3_1" = some true)) →
        (exceptState (absorbBlock st b)).v2Files = st.v2Files ∧
        (exceptState (absorbBlock st b)).v3Files = st.v3Files + 1) ∧
      (memKey b "cvssV2_0" = some false → memKey b "cvssV3_0" = some false →
        memKey b "cvssV3_1" = some false →
        (exceptState (absorbBlock st b)).v2Files = st.v2Files ∧
        (exceptState (absorbBlock st b)).v3Files = st.v3Files)) ∧
    (∀ (st : Stats) (b : J),
      (exceptState (absorbBlock st b)).v2Files + (exceptState (absorbBlock st b)).v3Files ≤
        st.v2Files + st.v3Files + 1) ∧
    (∀ (st : Stats) (data : J),
      (exceptStateB (legacySection st false data)).v2Files +
        (exceptStateB (legacySection st false data)).v3Files ≤
        st.v2Files + st.v3Files + 1) ∧
    (processFile initStats (some twoV3BlocksDoc)).v3Files = 2 ∧
    (processFile initStats (some mixedVersionsDoc)).v2Files = 1 ∧
    (processFile initStats (some mixedVersionsDoc)).v3Files = 1 :=
  ⟨fun st b metrics sev hm hne hs => absorbBlock_version_exact st b metrics sev hm hne hs,
   absorbBlock_version_le, legacySection_version_le, rfl, rfl, rfl⟩

/-- C5 (witness): the per-block version theorem instantiated at a score-only
v3.1 block (v3 counter gains one, v2 untouched) and a score-only v2.0 block
(v2 counter gains one, v3 untouched). -/
theorem version_counters_per_block_witness :
    (extract_metrics scoreOnlyV3Block = some v3init) ∧
    (extract_severity_from_cvss scoreOnlyV3Block = some "Medium") ∧
    (memKey scoreOnlyV3Block "cvssV2_0" = some false) ∧
    (memKey scoreOnlyV3Block "cvssV3_0" = some false) ∧
    (memKey scoreOnlyV3Block "cvssV3_1" = some true) ∧
    ((exceptState (absorbBlock initStats scoreOnlyV3Block)).v2Files = initStats.v2Files ∧
     (exceptState (absorbBlock initStats scoreOnlyV3Block)).v3Files = initStats.v3Files + 1) ∧
    (extract_metrics scoreOnlyV2Block = some v2init) ∧
    (memKey scoreOnlyV2Block "cvssV2_0" = some true) ∧
    ((exceptState (absorbBlock initStats scoreOnlyV2Block)).v2Files = initStats.v2Files + 1 ∧
     (exceptState (absorbBlock initStats scoreOnlyV2Block)).v3Files = initStats.v3Files) := by
  refine ⟨rfl, rfl, rfl, rfl, rfl, ?_, rfl, rfl, ?_⟩
  · exact (version_counters_per_block.1 initStats scoreOnlyV3Block v3init "Medium"
      rfl rfl rfl).2.1 rfl (Or.inr ⟨rfl, rfl⟩)
  · exact (version_counters_per_block.1 initStats scoreOnlyV2Block v2init "Medium"
      rfl rfl rfl).1 rfl

/-- C6: the Container Locator is mutually exclusive across tiers: a truthy
primary (cna) metrics list forces the `has_metrics` flag, a cna section that
leaves the flag unset contributes nothing, an adp section that leaves the
flag unset contributes nothing, and once the flag is set the adp and legacy
sections return the state untouched — so no document's counters mix blocks
from more than one of the three tiers. -/
theorem containerLocator_tier_exclusive :
    (∀ (st : Stats) (data cm : J) (st2 : Stats) (h2 : Bool),
      getCnaMetrics data = some cm → truthy cm = true →
      cnaSection absorbBlock st data = .ok (st2, h2) → h2 = true) ∧
    (∀ (st : Stats) (data : J) (st2 : Stats),
      cnaSection absorbBlock st data = .ok (st2, false) → st2 = st) ∧
    (∀ (st : Stats) (data : J) (st2 : Stats),
      adpSection absorbBlock st false data = .ok (st2, false) → st2 = st) ∧
    (∀ (st : Stats) (data : J), adpSection absorbBlock st true data = .ok (st, true)) ∧
    (∀ (st : Stats) (data : J), legacySection st true data = .ok (st, true)) :=
  ⟨fun st data cm st2 h2 hg ht h =>
     cnaSection_flag_of_truthy absorbBlock st data cm st2 h2 hg ht h,
   fun st data st2 h => cnaSection_ok_false absorbBlock st data st2 h,
   fun st data st2 h => adpSection_ok_false absorbBlock st data st2 h,
   fun _ _ => rfl, fun _ _ => rfl⟩

/-- C6 (witness): the tier-exclusivity theorem instantiated at the two-block
document (truthy cna list) and at the empty document (no scoring data). -/
theorem containerLocator_tier_exclusive_witness :
    (getCnaMetrics twoV3BlocksDoc = some (J.arr [scoreOnlyV3Block, scoreOnlyV3Block]) ∧
     truthy (J.arr [scoreOnlyV3Block, scoreOnlyV3Block]) = true ∧ (true : Bool) = true) ∧
    (cnaSection absorbBlock initStats (J.obj []) = Except.ok (initStats, false) ∧
     initStats = initStats) ∧
    (adpSection absorbBlock initStats false (J.obj []) = Except.ok (initStats, false) ∧
     initStats = initStats) := by
  refine ⟨⟨rfl, rfl, ?_⟩, ⟨rfl, ?_⟩, ⟨rfl, ?_⟩⟩
  · exact containerLocator_tier_exclusive.1 initStats twoV3BlocksDoc _ _ true rfl rfl rfl
  · exact containerLocator_tier_exclusive.2.1 initStats (J.obj []) initStats rfl
  · exact containerLocator_tier_exclusive.2.2.1 initStats (J.obj []) initStats rfl

/-- C7: for a v3 score block whose sub-block carries an explicit
`baseSeverity` equal to one of the four known labels, the severity resolver
returns the verbatim-mapped label, whatever else (in particular a numeric
`baseScore`) the sub-block contains — the score is never consulted. -/
theorem explicit_label_takes_priority :
    (∀ (b cvss : J) (lbl out : String),
      index b "cvssV3_1" = some cvss →
      dGetOpt cvss "baseSeverity" = some (J.str lbl) →
      (lbl, out) ∈ ([("CRITICAL", "Critical"), ("HIGH", "High"),
                     ("MEDIUM", "Medium"), ("LOW", "Low")] : List (String × String)) →
      extract_severity_from_cvss b = some out) ∧
    (∀ (b cvss : J) (lbl out : String),
      memKey b "cvssV3_1" = some false →
      index b "cvssV3_0" = some cvss →
      dGetOpt cvss "baseSeverity" = some (J.str lbl) →
      (lbl, out) ∈ ([("CRITICAL", "Critical"), ("HIGH", "High"),
                     ("MEDIUM", "Medium"), ("LOW", "Low")] : List (String × String)) →
      extract_severity_from_cvss b = some out) := by
  constructor
  · intro b cvss lbl out hidx hsev hmem
    cases b with
    | obj l =>
      have hlk : lookupKey l "cvssV3_1" = some cvss := hidx
      have hmk : memKey (J.obj l) "cvssV3_1" = some true := by
        simp [memKey, hlk]
      unfold extract_severity_from_cvss
      simp only [hmk, Option.bind_eq_bind, Option.some_bind, if_true, index, hlk]
      unfold severityFromV3Block
      simp only [hsev, Option.bind_eq_bind, Option.some_bind]
      fin_cases hmem <;> simp [truthy, jeq]
    | null => simp [index] at hidx
    | bool x => simp [index] at hidx
    | num x => simp [index] at hidx
    | str x => simp [index] at hidx
    | arr x => simp [index] at hidx
  · intro b cvss lbl out hmk31 hidx hsev hmem
    cases b with
    | obj l =>
      have hlk : lookupKey l "cvssV3_0" = some cvss := hidx
      have hmk : memKey (J.obj l) "cvssV3_0" = some true := by
        simp [memKey, hlk]
      unfold extract_severity_from_cvss
      simp only [hmk31, hmk, Option.bind_eq_bind, Option.some_bind, if_true,
        Bool.false_eq_true, if_false, index, hlk]
      unfold severityFromV3Block
      simp only [hsev, Option.bind_eq_bind, Option.some_bind]
      fin_cases hmem <;> simp [truthy, jeq]
    | null => simp [index] at hidx
    | bool x => simp [index] at hidx
    | num x => simp [index] at hidx
    | str x => simp [index] at hidx
    | arr x => simp [index] at hidx

/-- C7 (witness): the label-priority theorem instantiated at a block that
carries both `baseSeverity = "HIGH"` and `baseScore = 2.0`; thresholding the
score alone would give Low, yet the resolver returns High. -/
theorem explicit_label_takes_priority_witness :
    (index labelAndScoreBlock "cvssV3_1" =
       some (J.obj [("baseSeverity", J.str "HIGH"), ("baseScore", J.num 2)])) ∧
    (dGetOpt (J.obj [("baseSeverity", J.str "HIGH"), ("baseScore", J.num 2)])
       "baseSeverity" = some (J.str "HIGH")) ∧
    (("HIGH", "High") ∈ ([("CRITICAL", "Critical"), ("HIGH", "High"),
                          ("MEDIUM", "Medium"), ("LOW", "Low")] : List (String × String))) ∧
    calculate_severity_from_score (J.num 2) "v3" = some "Low" ∧
    extract_severity_from_cvss labelAndScoreBlock = some "High" :=
  ⟨rfl, rfl, by decide, rfl,
   explicit_label_takes_priority.1 labelAndScoreBlock
     (J.obj [("baseSeverity", J.str "HIGH"), ("baseScore", J.num 2)])
     "HIGH" "High" rfl rfl (by decide)⟩

theorem absorbBlock_unknown (st : Stats) (l : List (String × J))
    (h31 : lookupKey l "cvssV3_1" = none) (h30 : lookupKey l "cvssV3_0" = none)
    (h20 : lookupKey l "cvssV2_0" = none) :
    absorbBlock st (J.obj l) = .ok st := by
  have hm : extract_metrics (J.obj l) = some [] := by
    unfold extract_metrics
    simp [memKey, h31, h30, h20]
  unfold absorbBlock absorbBlockWith
  rw [hm]
  rfl

theorem runBlocks_unknown :
    ∀ (bs : List J) (st : Stats),
    (∀ b ∈ bs, ∃ l, b = J.obj l ∧ lookupKey l "cvssV3_1" = none ∧
       lookupKey l "cvssV3_0" = none ∧ lookupKey l "cvssV2_0" = none) →
    runBlocks absorbBlock st bs = .ok st := by
  intro bs
  induction bs with
  | nil => intro st _; rfl
  | cons b rest ih =>
    intro st hb
    obtain ⟨l, rfl, h31, h30, h20⟩ := hb b (List.mem_cons_self _ _)
    unfold runBlocks
    rw [absorbBlock_unknown st l h31 h30 h20]
    exact ih st (fun b2 hb2 => hb b2 (List.mem_cons_of_mem _ hb2))

/-- C10: a document whose primary (cna) metrics list is non-empty but holds
only blocks carrying none of the three standard-version keys: every block
decodes to the empty metric dict and contributes to no counter, yet the
document is still counted in files-with-metrics (and files-processed), and
— whatever scoring data the adp sections or the legacy impact object hold —
those tiers are never examined, so the final state differs from the input
only in the three document totals. -/
theorem unknown_version_blocks_still_count_as_metrics (st : Stats) (d : J)
    (bs : List J) (hget : getCnaMetrics d = some (J.arr bs)) (hne : bs ≠ [])
    (hblocks : ∀ b ∈ bs, ∃ l, b = J.obj l ∧ lookupKey l "cvssV3_1" = none ∧
       lookupKey l "cvssV3_0" = none ∧ lookupKey l "cvssV2_0" = none) :
    processFile st (some d) =
      { st with totalFiles := st.totalFiles + 1,
                filesWithMetrics := st.filesWithMetrics + 1,
                filesProcessed := st.filesProcessed + 1 } := by
  have hbse : bs.isEmpty = false := by
    cases bs with
    | nil => exact absurd rfl hne
    | cons x rest => rfl
  have hcna : ∀ st2 : Stats, cnaSection absorbBlock st2 d = .ok (st2, true) := by
    intro st2
    unfold cnaSection
    rw [hget]
    simp only [truthy, hbse, Bool.not_false, if_true, pyIter]
    rw [runBlocks_unknown bs st2 hblocks]
  have hpd : processDataWith absorbBlock { st with totalFiles := st.totalFiles + 1 } d =
      .ok { st with totalFiles := st.totalFiles + 1,
                    filesWithMetrics := st.filesWithMetrics + 1,
                    filesProcessed := st.filesProcessed + 1 } := by
    unfold processDataWith
    rw [hcna { st with totalFiles := st.totalFiles + 1 }]
    rfl
  unfold processFile processFileWith
  simp only []
  rw [hpd]

/-- C10 (witness): the unknown-version theorem instantiated at a document
whose cna tier holds one `{"foo": null}` block while its adp tier and legacy
impact object carry real scoring data that is never examined. -/
theorem unknown_version_blocks_witness :
    (getCnaMetrics unknownVersionDoc = some (J.arr [J.obj [("foo", J.null)]])) ∧
    (([J.obj [("foo", J.null)]] : List J) ≠ []) ∧
    (∀ b ∈ ([J.obj [("foo", J.null)]] : List J), ∃ l, b = J.obj l ∧
       lookupKey l "cvssV3_1" = none ∧ lookupKey l "cvssV3_0" = none ∧
       lookupKey l "cvssV2_0" = none) ∧
    processFile initStats (some unknownVersionDoc) =
      { initStats with totalFiles := initStats.totalFiles + 1,
                       filesWithMetrics := initStats.filesWithMetrics + 1,
                       filesProcessed := initStats.filesProcessed + 1 } := by
  have hblocks : ∀ b ∈ ([J.obj [("foo", J.null)]] : List J), ∃ l, b = J.obj l ∧
      lookupKey l "cvssV3_1" = none ∧ lookupKey l "cvssV3_0" = none ∧
      lookupKey l "cvssV2_0" = none := by
    intro b hb
    fin_cases hb
    exact ⟨[("foo", J.null)], rfl, rfl, rfl, rfl⟩
  refine ⟨rfl, by simp, hblocks, ?_⟩
  exact unknown_version_blocks_still_count_as_metrics initStats unknownVersionDoc
    [J.obj [("foo", J.null)]] rfl (by simp) hblocks

/-- C8 (witness): the threshold table instantiated at the integer score 10:
Critical under v3 and High under v2. -/
theorem severity_threshold_table_witness :
    calculate_severity_from_score (J.num 10) "v3" = some "Critical" ∧
    calculate_severity_from_score (J.num 10) "v2" = some "High" :=
  ⟨(severity_threshold_table 10).1.mpr (by decide),
   (severity_threshold_table 10).2.2.2.2.2.2.1.mpr (by decide)⟩
